import Mathlib

/-!
# Intent gateway and flat-file state store of mautrix-appservice-go

A shallow embedding of `intent.go` (the `IntentAPI` gateway) and of
`stores/flatfile.go` (the flat-file `StateStore` decorator).

Conventions of the embedding:

* A Go `error` is `Option GoError`; `none` is the nil error.
* A gateway run is a function of a `World`: the state store plus the log of
  everything the run has done so far (remote client calls and state store
  writes, in order).  It returns a `Res` (normal return or panic) and the
  world afterwards.
* The remote client (`mautrix.Client`) is outside the repository.  It is an
  oracle `RemoteClient` whose answers may depend on the whole log so far, so
  that every behaviour of the home server is covered.
* The state store is reached through the `StateStore` interface, so the
  gateway is parametric in it.  A store method called by the gateway is taken
  to return; the flat-file store, whose writes can panic, is embedded on its
  own in the namespace `Stores`.
-/

namespace Appservice

/-! ## Values of the client library -/

/-- The `mautrix.RespError` body of a failed request: the Matrix error code
and the human readable message. -/
structure RespError where
  ErrCode : String
  Err : String
  deriving DecidableEq, Repr

/-- The `mautrix.HTTPError` value.  `RespError` is a pointer in the client
library and is `none` when the response carried no Matrix error body. -/
structure HTTPError where
  RespError : Option RespError
  Message : String
  Code : Int
  deriving DecidableEq, Repr

/-- The dynamic values a Go `error` takes here: an `HTTPError` of the client
library, an error made by `fmt.Errorf` with `%w` around another error, or any
other error value, told apart by its text. -/
inductive GoError where
  | http (e : HTTPError)
  | wrapped (text : String) (inner : GoError)
  | other (text : String)
  deriving DecidableEq, Repr

/-- The zero value of `mautrix.HTTPError`, which a failed type assertion
`err.(mautrix.HTTPError)` yields. -/
def zeroHTTPError : HTTPError := ⟨none, "", 0⟩

/-- The run time error of dereferencing a nil pointer. -/
def nilDereference : GoError := GoError.other "invalid memory address or nil pointer dereference"

/-- The run time error of assigning to an entry of a nil map. -/
def nilMapAssignment : GoError := GoError.other "assignment to entry in nil map"

/-- The outcome of a Go call: it returns a value or it panics. -/
inductive Res (α : Type) where
  | ret (a : α)
  | panic (value : GoError)
  deriving DecidableEq, Repr

/-- The power level document `mautrix.PowerLevels`, reduced to the fields
the gateway and the stores read and write: the per-user levels, the default
user level, the per-event-type requirements and their default; the remaining
fields are carried along in `rest`.  `Users` is a Go map: `none` is the nil
map, which reads as the empty map and cannot be assigned to; a map that is
there is kept as an association list.  `Events` is only read, so its nil map
is the empty list. -/
structure PowerLevels where
  Users : Option (List (String × Int))
  UsersDefault : Int
  Events : List (String × Int)
  EventsDefault : Int
  rest : String
  deriving DecidableEq, Repr

/-- The zero value `mautrix.PowerLevels{}`: every map is nil. -/
def PowerLevels.zero : PowerLevels := ⟨none, 0, [], 0, ""⟩

/-- The library method `GetUserLevel`: the level stored for the user, the
default user level when there is none (a nil map has none). -/
def PowerLevels.GetUserLevel (pl : PowerLevels) (userID : String) : Int :=
  match pl.Users with
  | none => pl.UsersDefault
  | some users =>
    match users.lookup userID with
    | some level => level
    | none => pl.UsersDefault

/-- The library method `SetUserLevel`: the entry of the user is deleted when
the level is the default one, which leaves a nil map as it is, and assigned
otherwise, which panics on a nil map. -/
def PowerLevels.SetUserLevel (pl : PowerLevels) (userID : String) (level : Int) :
    Res PowerLevels :=
  if level = pl.UsersDefault then
    Res.ret { pl with
      Users := pl.Users.map (fun users => users.filter (fun kv => kv.1 != userID)) }
  else
    match pl.Users with
    | none => Res.panic nilMapAssignment
    | some users =>
      Res.ret { pl with
        Users := some ((userID, level) :: users.filter (fun kv => kv.1 != userID)) }

/-- Event content handed to or filled in by the remote client
(`interface{}` in the source): a power level document, a
`map[string]interface{}` literal with string values, or any other value,
given by its JSON text. -/
inductive Content where
  | powerLevels (pl : PowerLevels)
  | object (fields : List (String × String))
  | json (text : String)
  deriving DecidableEq, Repr

/-- The power level document behind a content pointer that was created as a
`*mautrix.PowerLevels`. -/
def Content.asPowerLevels : Content → PowerLevels
  | Content.powerLevels pl => pl
  | _ => PowerLevels.zero

/-- The value `mautrix.RespJoinRoom`. -/
structure RespJoinRoom where
  RoomID : String
  deriving DecidableEq, Repr

/-- The value `mautrix.RespSendEvent`. -/
structure RespSendEvent where
  EventID : String
  deriving DecidableEq, Repr

/-- The value `mautrix.RespTyping`, which has no fields. -/
structure RespTyping where
  deriving DecidableEq, Repr

/-- The value `mautrix.ReqRedact`. -/
structure ReqRedact where
  Reason : String
  TxnID : String
  deriving DecidableEq, Repr

/-- The value `mautrix.Member`. -/
structure Member where
  Membership : String
  Displayname : String
  AvatarURL : String
  deriving DecidableEq, Repr

/-- The event type constants of the client library used by the gateway. -/
def StatePowerLevels : String := "m.room.power_levels"

/-- The event type of room names. -/
def StateRoomName : String := "m.room.name"

/-- The event type of room avatars. -/
def StateRoomAvatar : String := "m.room.avatar"

/-- The event type of room topics. -/
def StateTopic : String := "m.room.topic"

/-! ## The log of a run -/

/-- A call on a `mautrix.Client`, with its arguments. -/
inductive Call where
  | Register (username : String)
  | JoinRoom (roomIDorAlias serverName : String)
  | InviteUser (roomID userID : String)
  | SendMessageEvent (roomID eventType : String) (content : Content) (extra : Option Int)
  | SendStateEvent (roomID eventType stateKey : String) (content : Content)
  | SendMassagedStateEvent (roomID eventType stateKey : String) (content : Content) (ts : Int)
  | StateEvent (roomID eventType stateKey : String) (outContent : Content)
  | UserTyping (roomID : String) (typing : Bool) (timeout : Int)
  | SendText (roomID text : String)
  | SendImage (roomID body url : String)
  | SendVideo (roomID body url : String)
  | SendNotice (roomID text : String)
  | RedactEvent (roomID eventID : String) (req : List ReqRedact)
  | SetDisplayName (displayName : String)
  | SetAvatarURL (avatarURL : String)
  deriving DecidableEq, Repr

/-- A mutating call on the state store, with its arguments. -/
inductive Write where
  | MarkRegistered (userID : String)
  | SetTyping (roomID userID : String) (timeout : Int)
  | SetMembership (roomID userID membership : String)
  | SetMember (roomID userID : String) (member : Member)
  | SetPowerLevels (roomID : String) (levels : PowerLevels)
  deriving DecidableEq, Repr

/-- One entry of the log: a call on the client of the identity `client`, or
a write to the state store. -/
inductive Event where
  | remote (client : String) (call : Call)
  | store (write : Write)
  deriving DecidableEq, Repr

/-- The remote client calls of a log. -/
def remoteCalls (log : List Event) : List Event :=
  log.filter (fun e => match e with | Event.remote _ _ => true | _ => false)

/-- The registration calls of a log. -/
def registerCalls (log : List Event) : List Event :=
  log.filter (fun e => match e with | Event.remote _ (Call.Register _) => true | _ => false)

/-- The join calls of a log. -/
def joinCalls (log : List Event) : List Event :=
  log.filter (fun e => match e with | Event.remote _ (Call.JoinRoom _ _) => true | _ => false)

/-- The invite calls of a log. -/
def inviteCalls (log : List Event) : List Event :=
  log.filter (fun e => match e with | Event.remote _ (Call.InviteUser _ _) => true | _ => false)

/-- The typing calls of a log. -/
def typingCalls (log : List Event) : List Event :=
  log.filter (fun e => match e with | Event.remote _ (Call.UserTyping _ _ _) => true | _ => false)

/-- The state store writes of a log. -/
def storeWrites (log : List Event) : List Event :=
  log.filter (fun e => match e with | Event.store _ => true | _ => false)

/-- The membership writes (`SetMembership`, `SetMember`) of a log. -/
def membershipWrites (log : List Event) : List Event :=
  log.filter (fun e => match e with
    | Event.store (Write.SetMembership _ _ _) => true
    | Event.store (Write.SetMember _ _ _) => true
    | _ => false)

/-! ## Collaborators -/

/-- The `StateStore` interface over a store state `σ`.  Reads are functions
of the state; writes give the state afterwards.  `aliasPowerLevels` is not a
method: it is what becomes of the store when the power level document it
holds for a room is mutated in place, through the pointer that
`GetPowerLevels` returned or `SetPowerLevels` received. -/
structure StateStore (σ : Type) where
  IsRegistered : σ → String → Bool
  MarkRegistered : σ → String → σ
  IsTyping : σ → String → String → Bool
  SetTyping : σ → String → String → Int → σ
  IsInRoom : σ → String → String → Bool
  IsInvited : σ → String → String → Bool
  IsMembership : σ → String → String → List String → Bool
  GetMember : σ → String → String → Member
  TryGetMember : σ → String → String → Member × Bool
  SetMembership : σ → String → String → String → σ
  SetMember : σ → String → String → Member → σ
  SetPowerLevels : σ → String → PowerLevels → σ
  GetPowerLevels : σ → String → Option PowerLevels
  GetPowerLevel : σ → String → String → Int
  GetPowerLevelRequirement : σ → String → String → Int
  HasPowerLevel : σ → String → String → String → Bool
  aliasPowerLevels : σ → String → PowerLevels → σ

/-- The behaviour of the remote side.  Every method takes the log so far and
the identity whose client is called; the answer is the pair a Go call
returns.  A successful `JoinRoom` carries a response. -/
structure RemoteClient where
  Register : List Event → String → String → Option GoError
  JoinRoom : List Event → String → String → String → Except GoError RespJoinRoom
  InviteUser : List Event → String → String → String → Option GoError
  Send : List Event → String → Call → Option RespSendEvent × Option GoError
  StateEvent : List Event → String → String → String → String → Content → Option GoError × Content
  UserTyping : List Event → String → String → Bool → Int → Option RespTyping × Option GoError
  SetDisplayName : List Event → String → String → Option GoError
  SetAvatarURL : List Event → String → String → Option GoError

/-- The state store together with the log of the run. -/
structure World (σ : Type) where
  store : σ
  log : List Event

/-- The world after a call on the client of `client`. -/
def World.call {σ : Type} (w : World σ) (client : String) (c : Call) : World σ :=
  { w with log := w.log ++ [Event.remote client c] }

/-- The world after a store write that led to the state `s`. -/
def World.wrote {σ : Type} (w : World σ) (s : σ) (wr : Write) : World σ :=
  { store := s, log := w.log ++ [Event.store wr] }

/-- The `IntentAPI` value: the identity it acts for and the identity of the
bot client, `none` when the `bot` field is nil.  The client of the identity
and the application service are the collaborators above. -/
structure IntentAPI where
  bot : Option String
  Localpart : String
  UserID : String
  deriving DecidableEq, Repr

/-- The constructor `NewIntentAPI`: the user id is built from the localpart
and the home server domain, and no bot is kept when the identity is the bot
itself. -/
def NewIntentAPI (HomeserverDomain botUserID localpart : String) : IntentAPI :=
  let userID := "@" ++ localpart ++ ":" ++ HomeserverDomain
  { bot := if userID = botUserID then none else some botUserID,
    Localpart := localpart,
    UserID := userID }

/-! ## The gateway (`intent.go`) -/

namespace IntentAPI

section Gateway

variable {σ : Type} (S : StateStore σ) (R : RemoteClient) (intent : IntentAPI)

/-- The method `Register`: one registration call for the localpart; its error is
returned. -/
def Register (w : World σ) : Option GoError × World σ :=
  (R.Register w.log intent.UserID intent.Localpart,
    w.call intent.UserID (Call.Register intent.Localpart))

/-- The method `EnsureRegistered`. -/
def EnsureRegistered (w : World σ) : Res (Option GoError) × World σ :=
  if S.IsRegistered w.store intent.UserID then (Res.ret none, w)
  else
    match Register R intent w with
    | (some (GoError.http httpErr), w1) =>
      match httpErr.RespError with
      | none => (Res.panic nilDereference, w1)
      | some respError =>
        if respError.ErrCode ≠ "M_USER_IN_USE" then
          (Res.ret (some (GoError.http httpErr)), w1)
        else
          (Res.ret none,
            w1.wrote (S.MarkRegistered w1.store intent.UserID) (Write.MarkRegistered intent.UserID))
    | (err, w1) => (Res.ret err, w1)

/-- The method `EnsureJoined`. -/
def EnsureJoined (roomID : String) (w : World σ) : Res (Option GoError) × World σ :=
  if S.IsInRoom w.store roomID intent.UserID then (Res.ret none, w)
  else
    match EnsureRegistered S R intent w with
    | (Res.panic v, w1) => (Res.panic v, w1)
    | (Res.ret (some err), w1) => (Res.ret (some err), w1)
    | (Res.ret none, w1) =>
      let w2 := w1.call intent.UserID (Call.JoinRoom roomID "")
      match R.JoinRoom w1.log intent.UserID roomID "" with
      | Except.ok resp =>
        (Res.ret none,
          w2.wrote (S.SetMembership w2.store resp.RoomID intent.UserID "join")
            (Write.SetMembership resp.RoomID intent.UserID "join"))
      | Except.error (GoError.http httpErr) =>
        match httpErr.RespError with
        | none => (Res.panic nilDereference, w2)
        | some respError =>
          if respError.ErrCode ≠ "M_FORBIDDEN" then (Res.ret (some (GoError.http httpErr)), w2)
          else
            match intent.bot with
            | none => (Res.ret (some (GoError.http httpErr)), w2)
            | some bot =>
              let w3 := w2.call bot (Call.InviteUser roomID intent.UserID)
              match R.InviteUser w2.log bot roomID intent.UserID with
              | some _ => (Res.ret (some (GoError.http httpErr)), w3)
              | none =>
                let w4 := w3.call intent.UserID (Call.JoinRoom roomID "")
                match R.JoinRoom w3.log intent.UserID roomID "" with
                | Except.error err => (Res.ret (some err), w4)
                | Except.ok resp =>
                  (Res.ret none,
                    w4.wrote (S.SetMembership w4.store resp.RoomID intent.UserID "join")
                      (Write.SetMembership resp.RoomID intent.UserID "join"))
      | Except.error _ => (Res.ret (some (GoError.http zeroHTTPError)), w2)

/-- A call of a sending method on the client of the identity: the call is
logged and the pair the client returns is handed back. -/
def clientSend (call : Call) (w : World σ) :
    Res (Option RespSendEvent × Option GoError) × World σ :=
  (Res.ret (R.Send w.log intent.UserID call), w.call intent.UserID call)

/-- The method `SendMessageEvent`. -/
def SendMessageEvent (roomID eventType : String) (contentJSON : Content) (w : World σ) :
    Res (Option RespSendEvent × Option GoError) × World σ :=
  match EnsureJoined S R intent roomID w with
  | (Res.panic v, w1) => (Res.panic v, w1)
  | (Res.ret (some err), w1) => (Res.ret (none, some err), w1)
  | (Res.ret none, w1) =>
    clientSend R intent (Call.SendMessageEvent roomID eventType contentJSON none) w1

/-- The method `SendMassagedMessageEvent`: the time stamp travels as the extra
`ReqSendEvent` argument of the client method `SendMessageEvent`. -/
def SendMassagedMessageEvent (roomID eventType : String) (contentJSON : Content) (ts : Int)
    (w : World σ) : Res (Option RespSendEvent × Option GoError) × World σ :=
  match EnsureJoined S R intent roomID w with
  | (Res.panic v, w1) => (Res.panic v, w1)
  | (Res.ret (some err), w1) => (Res.ret (none, some err), w1)
  | (Res.ret none, w1) =>
    clientSend R intent (Call.SendMessageEvent roomID eventType contentJSON (some ts)) w1

/-- The method `SendStateEvent`. -/
def SendStateEvent (roomID eventType stateKey : String) (contentJSON : Content) (w : World σ) :
    Res (Option RespSendEvent × Option GoError) × World σ :=
  match EnsureJoined S R intent roomID w with
  | (Res.panic v, w1) => (Res.panic v, w1)
  | (Res.ret (some err), w1) => (Res.ret (none, some err), w1)
  | (Res.ret none, w1) =>
    clientSend R intent (Call.SendStateEvent roomID eventType stateKey contentJSON) w1

/-- The method `SendMassagedStateEvent`. -/
def SendMassagedStateEvent (roomID eventType stateKey : String) (contentJSON : Content)
    (ts : Int) (w : World σ) : Res (Option RespSendEvent × Option GoError) × World σ :=
  match EnsureJoined S R intent roomID w with
  | (Res.panic v, w1) => (Res.panic v, w1)
  | (Res.ret (some err), w1) => (Res.ret (none, some err), w1)
  | (Res.ret none, w1) =>
    clientSend R intent (Call.SendMassagedStateEvent roomID eventType stateKey contentJSON ts) w1

/-- The method `StateEvent`: the error of the read and the content it left
behind the `outContent` pointer. -/
def StateEvent (roomID eventType stateKey : String) (outContent : Content) (w : World σ) :
    Res (Option GoError × Content) × World σ :=
  match EnsureJoined S R intent roomID w with
  | (Res.panic v, w1) => (Res.panic v, w1)
  | (Res.ret (some err), w1) => (Res.ret (some err, outContent), w1)
  | (Res.ret none, w1) =>
    (Res.ret (R.StateEvent w1.log intent.UserID roomID eventType stateKey outContent),
      w1.call intent.UserID (Call.StateEvent roomID eventType stateKey outContent))

/-- The method `PowerLevels`: the document and the error it returns. -/
def PowerLevels (roomID : String) (w : World σ) :
    Res (Appservice.PowerLevels × Option GoError) × World σ :=
  match S.GetPowerLevels w.store roomID with
  | some pl => (Res.ret (pl, none), w)
  | none =>
    match StateEvent S R intent roomID StatePowerLevels ""
        (Content.powerLevels Appservice.PowerLevels.zero) w with
    | (Res.panic v, w1) => (Res.panic v, w1)
    | (Res.ret (some err, out), w1) => (Res.ret (out.asPowerLevels, some err), w1)
    | (Res.ret (none, out), w1) =>
      (Res.ret (out.asPowerLevels, none),
        w1.wrote (S.SetPowerLevels w1.store roomID out.asPowerLevels)
          (Write.SetPowerLevels roomID out.asPowerLevels))

/-- The method `SetPowerLevels`. -/
def SetPowerLevels (roomID : String) (levels : Appservice.PowerLevels) (w : World σ) :
    Res (Option RespSendEvent × Option GoError) × World σ :=
  match SendStateEvent S R intent roomID StatePowerLevels "" (Content.powerLevels levels) w with
  | (Res.panic v, w1) => (Res.panic v, w1)
  | (Res.ret (resp, some err), w1) => (Res.ret (resp, some err), w1)
  | (Res.ret (resp, none), w1) =>
    (Res.ret (resp, none),
      w1.wrote (S.SetPowerLevels w1.store roomID levels) (Write.SetPowerLevels roomID levels))

/-- The method `SetPowerLevel`.  The document is changed in place before it is
sent, so the copy the store holds changes with it; a panic of `SetUserLevel`
ends the run before anything is changed or sent. -/
def SetPowerLevel (roomID userID : String) (level : Int) (w : World σ) :
    Res (Option RespSendEvent × Option GoError) × World σ :=
  match PowerLevels S R intent roomID w with
  | (Res.panic v, w1) => (Res.panic v, w1)
  | (Res.ret (_, some err), w1) => (Res.ret (none, some err), w1)
  | (Res.ret (pl, none), w1) =>
    if Appservice.PowerLevels.GetUserLevel pl userID ≠ level then
      match Appservice.PowerLevels.SetUserLevel pl userID level with
      | Res.panic v => (Res.panic v, w1)
      | Res.ret pl1 =>
        SendStateEvent S R intent roomID StatePowerLevels "" (Content.powerLevels pl1)
          { w1 with store := S.aliasPowerLevels w1.store roomID pl1 }
    else (Res.ret (none, none), w1)

/-- The method `UserTyping`. -/
def UserTyping (roomID : String) (typing : Bool) (timeout : Int) (w : World σ) :
    Res (Option RespTyping × Option GoError) × World σ :=
  if S.IsTyping w.store roomID intent.UserID = typing then (Res.ret (none, none), w)
  else
    let w1 := w.call intent.UserID (Call.UserTyping roomID typing timeout)
    match R.UserTyping w.log intent.UserID roomID typing timeout with
    | (resp, some err) => (Res.ret (resp, some err), w1)
    | (resp, none) =>
      let timeout1 := if ¬ typing then -1 else timeout
      (Res.ret (resp, none),
        w1.wrote (S.SetTyping w1.store roomID intent.UserID timeout1)
          (Write.SetTyping roomID intent.UserID timeout1))

/-- The method `SendText`. -/
def SendText (roomID text : String) (w : World σ) :
    Res (Option RespSendEvent × Option GoError) × World σ :=
  match EnsureJoined S R intent roomID w with
  | (Res.panic v, w1) => (Res.panic v, w1)
  | (Res.ret (some err), w1) => (Res.ret (none, some err), w1)
  | (Res.ret none, w1) => clientSend R intent (Call.SendText roomID text) w1

/-- The method `SendImage`. -/
def SendImage (roomID body url : String) (w : World σ) :
    Res (Option RespSendEvent × Option GoError) × World σ :=
  match EnsureJoined S R intent roomID w with
  | (Res.panic v, w1) => (Res.panic v, w1)
  | (Res.ret (some err), w1) => (Res.ret (none, some err), w1)
  | (Res.ret none, w1) => clientSend R intent (Call.SendImage roomID body url) w1

/-- The method `SendVideo`. -/
def SendVideo (roomID body url : String) (w : World σ) :
    Res (Option RespSendEvent × Option GoError) × World σ :=
  match EnsureJoined S R intent roomID w with
  | (Res.panic v, w1) => (Res.panic v, w1)
  | (Res.ret (some err), w1) => (Res.ret (none, some err), w1)
  | (Res.ret none, w1) => clientSend R intent (Call.SendVideo roomID body url) w1

/-- The method `SendNotice`. -/
def SendNotice (roomID text : String) (w : World σ) :
    Res (Option RespSendEvent × Option GoError) × World σ :=
  match EnsureJoined S R intent roomID w with
  | (Res.panic v, w1) => (Res.panic v, w1)
  | (Res.ret (some err), w1) => (Res.ret (none, some err), w1)
  | (Res.ret none, w1) => clientSend R intent (Call.SendNotice roomID text) w1

/-- The method `RedactEvent`. -/
def RedactEvent (roomID eventID : String) (req : List ReqRedact) (w : World σ) :
    Res (Option RespSendEvent × Option GoError) × World σ :=
  match EnsureJoined S R intent roomID w with
  | (Res.panic v, w1) => (Res.panic v, w1)
  | (Res.ret (some err), w1) => (Res.ret (none, some err), w1)
  | (Res.ret none, w1) => clientSend R intent (Call.RedactEvent roomID eventID req) w1

/-- The method `SetRoomName`. -/
def SetRoomName (roomID roomName : String) (w : World σ) :
    Res (Option RespSendEvent × Option GoError) × World σ :=
  SendStateEvent S R intent roomID StateRoomName "" (Content.object [("name", roomName)]) w

/-- The method `SetRoomAvatar`. -/
def SetRoomAvatar (roomID avatarURL : String) (w : World σ) :
    Res (Option RespSendEvent × Option GoError) × World σ :=
  SendStateEvent S R intent roomID StateRoomAvatar "" (Content.object [("url", avatarURL)]) w

/-- The method `SetRoomTopic`. -/
def SetRoomTopic (roomID topic : String) (w : World σ) :
    Res (Option RespSendEvent × Option GoError) × World σ :=
  SendStateEvent S R intent roomID StateTopic "" (Content.object [("topic", topic)]) w

/-- The method `SetDisplayName`. -/
def SetDisplayName (displayName : String) (w : World σ) : Res (Option GoError) × World σ :=
  match EnsureRegistered S R intent w with
  | (Res.panic v, w1) => (Res.panic v, w1)
  | (Res.ret (some err), w1) => (Res.ret (some err), w1)
  | (Res.ret none, w1) =>
    (Res.ret (R.SetDisplayName w1.log intent.UserID displayName),
      w1.call intent.UserID (Call.SetDisplayName displayName))

/-- The method `SetAvatarURL`. -/
def SetAvatarURL (avatarURL : String) (w : World σ) : Res (Option GoError) × World σ :=
  match EnsureRegistered S R intent w with
  | (Res.panic v, w1) => (Res.panic v, w1)
  | (Res.ret (some err), w1) => (Res.ret (some err), w1)
  | (Res.ret none, w1) =>
    (Res.ret (R.SetAvatarURL w1.log intent.UserID avatarURL),
      w1.call intent.UserID (Call.SetAvatarURL avatarURL))

/-- The method `EnsureInvited`: the invite goes out on the client of the identity
itself and nothing is recorded. -/
def EnsureInvited (roomID userID : String) (w : World σ) : Res (Option GoError) × World σ :=
  if ¬ S.IsInvited w.store roomID userID then
    (Res.ret (R.InviteUser w.log intent.UserID roomID userID),
      w.call intent.UserID (Call.InviteUser roomID userID))
  else (Res.ret none, w)

end Gateway

end IntentAPI


/-! ## The basic state store -/

/-- Modelled from the spec: `BasicStateStore` (its file, `statestore.go`, is
not among the sources; the four maps are those `NewFileStore` allocates).
Maps are association lists in which the first entry of a key is the current
one; the two-level member map is keyed by the pair of room and user.  The
typing record keeps the flag only: the spec treats the timeout as implicit
and does not track real time. -/
structure BasicStateStore where
  Registrations : List (String × Bool)
  Members : List ((String × String) × Member)
  PowerLevels : List (String × Appservice.PowerLevels)
  Typing : List ((String × String) × Bool)
  deriving DecidableEq, Repr

namespace BasicStateStore

/-- The store `NewFileStore` starts from: four empty maps. -/
def empty : BasicStateStore := ⟨[], [], [], []⟩

/-- Modelled from the spec: `isRegistered`; an absent registration is false. -/
def IsRegistered (store : BasicStateStore) (userID : String) : Bool :=
  (store.Registrations.lookup userID).getD false

/-- Modelled from the spec: `markRegistered`, which sets membership in the
registration set. -/
def MarkRegistered (store : BasicStateStore) (userID : String) : BasicStateStore :=
  { store with Registrations := (userID, true) :: store.Registrations }

/-- Modelled from the spec: `isTyping`; an absent typing record is false. -/
def IsTyping (store : BasicStateStore) (roomID userID : String) : Bool :=
  (store.Typing.lookup (roomID, userID)).getD false

/-- Modelled from the spec: `setTyping`; any non-negative timeout means
"currently typing", a negative one means "not typing". -/
def SetTyping (store : BasicStateStore) (roomID userID : String) (timeout : Int) :
    BasicStateStore :=
  { store with Typing := ((roomID, userID), decide (0 ≤ timeout)) :: store.Typing }

/-- Modelled from the spec: `tryGetMember`, which signals "unknown" by its
second component. -/
def TryGetMember (store : BasicStateStore) (roomID userID : String) : Member × Bool :=
  match store.Members.lookup (roomID, userID) with
  | some member => (member, true)
  | none => (⟨"", "", ""⟩, false)

/-- Modelled from the spec: `getMember`; the membership state of an unknown
member is none, the empty state. -/
def GetMember (store : BasicStateStore) (roomID userID : String) : Member :=
  (store.TryGetMember roomID userID).1

/-- Modelled from the spec: `isMembership`, true if the cached state is any of
the given states. -/
def IsMembership (store : BasicStateStore) (roomID userID : String)
    (allowedMemberships : List String) : Bool :=
  allowedMemberships.contains (store.GetMember roomID userID).Membership

/-- Modelled from the spec: `isInRoom`, the cached state is joined. -/
def IsInRoom (store : BasicStateStore) (roomID userID : String) : Bool :=
  store.IsMembership roomID userID ["join"]

/-- Modelled from the spec: `isInvited`, the cached state is invited. -/
def IsInvited (store : BasicStateStore) (roomID userID : String) : Bool :=
  store.IsMembership roomID userID ["invite"]

/-- Modelled from the spec: `setMember`, which overwrites the full record. -/
def SetMember (store : BasicStateStore) (roomID userID : String) (member : Member) :
    BasicStateStore :=
  { store with Members := ((roomID, userID), member) :: store.Members }

/-- Modelled from the spec: `setMembership`, which overwrites the state of the
record and keeps its metadata. -/
def SetMembership (store : BasicStateStore) (roomID userID membership : String) :
    BasicStateStore :=
  store.SetMember roomID userID
    { (store.TryGetMember roomID userID).1 with Membership := membership }

/-- Modelled from the spec: `getPowerLevels`, the document or absent. -/
def GetPowerLevels (store : BasicStateStore) (roomID : String) :
    Option Appservice.PowerLevels :=
  store.PowerLevels.lookup roomID

/-- Modelled from the spec: `setPowerLevels`, which overwrites the document. -/
def SetPowerLevels (store : BasicStateStore) (roomID : String)
    (levels : Appservice.PowerLevels) : BasicStateStore :=
  { store with PowerLevels := (roomID, levels) :: store.PowerLevels }

/-- Modelled from the spec: `getPowerLevel`, derived from the cached document,
from the zero-value document when there is none. -/
def GetPowerLevel (store : BasicStateStore) (roomID userID : String) : Int :=
  ((store.GetPowerLevels roomID).getD Appservice.PowerLevels.zero).GetUserLevel userID

/-- Modelled from the spec: `getPowerLevelRequirement`, derived from the cached
document in the same way. -/
def GetPowerLevelRequirement (store : BasicStateStore) (roomID eventType : String) : Int :=
  let pl := (store.GetPowerLevels roomID).getD Appservice.PowerLevels.zero
  (pl.Events.lookup eventType).getD pl.EventsDefault

/-- Modelled from the spec: `hasPowerLevel`, which compares the two derived
values. -/
def HasPowerLevel (store : BasicStateStore) (roomID userID eventType : String) : Bool :=
  decide (store.GetPowerLevelRequirement roomID eventType ≤ store.GetPowerLevel roomID userID)

/-- The basic store as a `StateStore`.  It keeps the pointer to a power level
document, so a change in place shows in the store. -/
def ops : StateStore BasicStateStore where
  IsRegistered := IsRegistered
  MarkRegistered := MarkRegistered
  IsTyping := IsTyping
  SetTyping := SetTyping
  IsInRoom := IsInRoom
  IsInvited := IsInvited
  IsMembership := IsMembership
  GetMember := GetMember
  TryGetMember := TryGetMember
  SetMembership := SetMembership
  SetMember := SetMember
  SetPowerLevels := SetPowerLevels
  GetPowerLevels := GetPowerLevels
  GetPowerLevel := GetPowerLevel
  GetPowerLevelRequirement := GetPowerLevelRequirement
  HasPowerLevel := HasPowerLevel
  aliasPowerLevels := SetPowerLevels

end BasicStateStore

end Appservice

/-! ## The flat-file store (`stores/flatfile.go`) -/

namespace Stores

open Appservice

/-- Modelled from the spec: the snapshot format, that is the JSON form of the
embedded basic store (the declaration of `BasicStateStore` with its JSON tags
is not among the sources, and the encoder is the standard library).  `Encode`
gives what `json.NewEncoder(f).Encode(store.BasicStateStore)` writes, or its
error; `Decode` gives what `json.NewDecoder(f).Decode` reads from such a text.
The spec has the snapshot contain the four record families in full and
remain parseable by the same reader that produced it: the law `roundTrip`. -/
structure Snapshot (β τ : Type) where
  Encode : β → Except GoError τ
  Decode : τ → Except GoError β
  roundTrip : ∀ (b : β) (text : τ), Encode b = Except.ok text → Decode text = Except.ok b

/-- The disk: the files by name, the first entry of a name being the current
one, and for each file its content, `none` for an empty file and `some text`
for a file that holds one encoded snapshot. -/
abbrev Disk (τ : Type) := List (String × Option τ)

/-- The operating system as seen by `save`.  `CreateError` is the error of
`os.Create` on a file name when it fails.  `WriteError` is the failure of the
write of an encoded snapshot to the created file: its error and the disk it
leaves behind. -/
structure FileSystem (τ : Type) where
  CreateError : Disk τ → String → Option GoError
  WriteError : Disk τ → String → τ → Option (GoError × Disk τ)

/-- The value `flatfileStore`: the embedded basic store and the file name.  The
field `file` is never assigned or read and is left out. -/
structure flatfileStore (β : Type) where
  BasicStateStore : β
  filename : String

namespace flatfileStore

section Methods

variable {β τ : Type} (B : StateStore β) (codec : Snapshot β τ) (fs : FileSystem τ)

/-- The method `save`: the error it returns and the disk afterwards.  `os.Create`
fails, or leaves the file empty; the encoder then fails before it writes, or
its write fails, or the file holds the encoded store. -/
def save (store : flatfileStore β) (disk : Disk τ) : Option GoError × Disk τ :=
  match fs.CreateError disk store.filename with
  | some err =>
    (some (GoError.wrapped ("opening state file " ++ store.filename ++ " for writing: ") err),
      disk)
  | none =>
    let disk1 : Disk τ := (store.filename, none) :: disk
    match codec.Encode store.BasicStateStore with
    | Except.error err =>
      (some (GoError.wrapped ("writing state to file " ++ store.filename ++ ": ") err), disk1)
    | Except.ok text =>
      match fs.WriteError disk1 store.filename text with
      | some (err, disk2) =>
        (some (GoError.wrapped ("writing state to file " ++ store.filename ++ ": ") err),
          disk2)
      | none => (none, (store.filename, some text) :: disk1)

/-- The tail shared by the five mutating methods: `save`, and a panic with its
error when it fails. -/
def saveOrPanic (store : flatfileStore β) (disk : Disk τ) :
    Res (flatfileStore β) × Disk τ :=
  match save codec fs store disk with
  | (some err, disk1) => (Res.panic err, disk1)
  | (none, disk1) => (Res.ret store, disk1)

/-- The method `IsRegistered`. -/
def IsRegistered (store : flatfileStore β) (userID : String) : Bool :=
  B.IsRegistered store.BasicStateStore userID

/-- The method `MarkRegistered`. -/
def MarkRegistered (store : flatfileStore β) (userID : String) (disk : Disk τ) :
    Res (flatfileStore β) × Disk τ :=
  saveOrPanic codec fs
    { store with BasicStateStore := B.MarkRegistered store.BasicStateStore userID } disk

/-- The method `IsTyping`. -/
def IsTyping (store : flatfileStore β) (roomID userID : String) : Bool :=
  B.IsTyping store.BasicStateStore roomID userID

/-- The method `SetTyping`. -/
def SetTyping (store : flatfileStore β) (roomID userID : String) (timeout : Int) (disk : Disk τ) :
    Res (flatfileStore β) × Disk τ :=
  saveOrPanic codec fs
    { store with BasicStateStore := B.SetTyping store.BasicStateStore roomID userID timeout } disk

/-- The method `IsInRoom`. -/
def IsInRoom (store : flatfileStore β) (roomID userID : String) : Bool :=
  B.IsInRoom store.BasicStateStore roomID userID

/-- The method `IsInvited`. -/
def IsInvited (store : flatfileStore β) (roomID userID : String) : Bool :=
  B.IsInvited store.BasicStateStore roomID userID

/-- The method `IsMembership`. -/
def IsMembership (store : flatfileStore β) (roomID userID : String)
    (allowedMemberships : List String) : Bool :=
  B.IsMembership store.BasicStateStore roomID userID allowedMemberships

/-- The method `GetMember`. -/
def GetMember (store : flatfileStore β) (roomID userID : String) : Member :=
  B.GetMember store.BasicStateStore roomID userID

/-- The method `TryGetMember`. -/
def TryGetMember (store : flatfileStore β) (roomID userID : String) : Member × Bool :=
  B.TryGetMember store.BasicStateStore roomID userID

/-- The method `SetMembership`. -/
def SetMembership (store : flatfileStore β) (roomID userID membership : String) (disk : Disk τ) :
    Res (flatfileStore β) × Disk τ :=
  saveOrPanic codec fs
    { store with
      BasicStateStore := B.SetMembership store.BasicStateStore roomID userID membership } disk

/-- The method `SetMember`. -/
def SetMember (store : flatfileStore β) (roomID userID : String) (member : Member) (disk : Disk τ) :
    Res (flatfileStore β) × Disk τ :=
  saveOrPanic codec fs
    { store with BasicStateStore := B.SetMember store.BasicStateStore roomID userID member } disk

/-- The method `SetPowerLevels`. -/
def SetPowerLevels (store : flatfileStore β) (roomID : String) (levels : PowerLevels)
    (disk : Disk τ) : Res (flatfileStore β) × Disk τ :=
  saveOrPanic codec fs
    { store with BasicStateStore := B.SetPowerLevels store.BasicStateStore roomID levels } disk

/-- The method `GetPowerLevels`. -/
def GetPowerLevels (store : flatfileStore β) (roomID : String) : Option PowerLevels :=
  B.GetPowerLevels store.BasicStateStore roomID

/-- The method `GetPowerLevel`. -/
def GetPowerLevel (store : flatfileStore β) (roomID userID : String) : Int :=
  B.GetPowerLevel store.BasicStateStore roomID userID

/-- The method `GetPowerLevelRequirement`. -/
def GetPowerLevelRequirement (store : flatfileStore β) (roomID eventType : String) : Int :=
  B.GetPowerLevelRequirement store.BasicStateStore roomID eventType

/-- The method `HasPowerLevel`. -/
def HasPowerLevel (store : flatfileStore β) (roomID userID eventType : String) : Bool :=
  B.HasPowerLevel store.BasicStateStore roomID userID eventType

end Methods

end flatfileStore

end Stores

/-! ## Vocabulary of the statements -/

namespace Appservice

open IntentAPI

/-- An operation `op` on a room is join gated with client call `call`: in
every world, when `EnsureJoined` returns an error the operation returns that
error with a nil response in the world `EnsureJoined` left, and when
`EnsureJoined` succeeds the operation makes exactly the one client call and
returns what the client returned. -/
def JoinGated {σ : Type} (S : StateStore σ) (R : RemoteClient) (intent : IntentAPI)
    (roomID : String) (op : World σ → Res (Option RespSendEvent × Option GoError) × World σ)
    (call : Call) : Prop :=
  ∀ w : World σ,
    (∀ err w1, EnsureJoined S R intent roomID w = (Res.ret (some err), w1) →
      op w = (Res.ret (none, some err), w1)) ∧
    (∀ w1, EnsureJoined S R intent roomID w = (Res.ret none, w1) →
      op w = (Res.ret (R.Send w1.log intent.UserID call),
        ⟨w1.store, w1.log ++ [Event.remote intent.UserID call]⟩))

/-- The typing contract of a store: after `SetTyping` the identity is typing
in the room exactly when the timeout was not negative. -/
def TypingContract {σ : Type} (S : StateStore σ) : Prop :=
  ∀ (s : σ) (roomID userID : String) (timeout : Int),
    S.IsTyping (S.SetTyping s roomID userID timeout) roomID userID = decide (0 ≤ timeout)

end Appservice

namespace Stores

open Appservice

/-- Write-through of a mutating call of the flat-file store whose basic
mutation leads to `mutated`.  A normal return hands back the store around
`mutated` after a `save` of it that returned no error, and the backing file
then holds the encoding of the whole of `mutated`, which decodes to `mutated`
again.  Whenever `save` of that store fails the call panics with the error of
`save`, and whenever it succeeds the call returns. -/
def WriteThrough {β τ : Type} (codec : Snapshot β τ) (fs : FileSystem τ)
    (store : flatfileStore β) (disk : Disk τ) (mutated : β)
    (result : Res (flatfileStore β) × Disk τ) : Prop :=
  (∀ store1 disk1, result = (Res.ret store1, disk1) →
    store1 = { store with BasicStateStore := mutated } ∧
    flatfileStore.save codec fs { store with BasicStateStore := mutated } disk
      = (none, disk1) ∧
    ∃ text, codec.Encode mutated = Except.ok text ∧
      disk1.lookup store.filename = some (some text) ∧
      codec.Decode text = Except.ok mutated) ∧
  (∀ err disk1,
    flatfileStore.save codec fs { store with BasicStateStore := mutated } disk
      = (some err, disk1) →
    result = (Res.panic err, disk1)) ∧
  (∀ disk1,
    flatfileStore.save codec fs { store with BasicStateStore := mutated } disk
      = (none, disk1) →
    result = (Res.ret { store with BasicStateStore := mutated }, disk1))

end Stores

/-! ## Concrete collaborators

Small stores and remote sides on which the gateway and the flat-file store
are evaluated. -/

namespace Scenario

open Appservice

/-- An identity with a bot configured. -/
def alice : IntentAPI :=
  { bot := some "@bot:example.org", Localpart := "alice", UserID := "@alice:example.org" }

/-- A remote side on which every call succeeds; a join resolves the room to
itself and a state read leaves the content as it was. -/
def remoteOK : RemoteClient where
  Register := fun _ _ _ => none
  JoinRoom := fun _ _ roomID _ => Except.ok ⟨roomID⟩
  InviteUser := fun _ _ _ _ => none
  Send := fun _ _ _ => (some ⟨"$event"⟩, none)
  StateEvent := fun _ _ _ _ _ out => (none, out)
  UserTyping := fun _ _ _ _ _ => (some ⟨⟩, none)
  SetDisplayName := fun _ _ _ => none
  SetAvatarURL := fun _ _ _ => none

/-- The error of a request the home server rejects with the given code. -/
def matrixError (errCode : String) : GoError :=
  GoError.http ⟨some ⟨errCode, ""⟩, "", 403⟩

/-- An error that is not an `HTTPError`. -/
def networkError : GoError := GoError.other "connection refused"

/-- The world of an empty basic store and an empty log. -/
def fresh : World BasicStateStore := ⟨BasicStateStore.empty, []⟩

/-- The world in which the basic store knows the identity as registered. -/
def registered : World BasicStateStore :=
  ⟨BasicStateStore.empty.MarkRegistered alice.UserID, []⟩

/-- The world in which the basic store knows the identity as registered and as
joined to the room `!room:example.org`. -/
def joined : World BasicStateStore :=
  ⟨(BasicStateStore.empty.MarkRegistered alice.UserID).SetMembership
      "!room:example.org" alice.UserID "join", []⟩

/-- A remote side that refuses a join as forbidden until an invite has gone
out, and then lets it through. -/
def remoteInviteOnly : RemoteClient :=
  { remoteOK with
    JoinRoom := fun log _ roomID _ =>
      if (inviteCalls log).isEmpty then Except.error (matrixError "M_FORBIDDEN")
      else Except.ok ⟨roomID⟩ }

/-- A remote side that refuses every join as forbidden and every invite with
another error. -/
def remoteInviteFails : RemoteClient :=
  { remoteOK with
    JoinRoom := fun _ _ _ _ => Except.error (matrixError "M_FORBIDDEN")
    InviteUser := fun _ _ _ _ => some (matrixError "M_UNKNOWN") }

/-- A remote side that refuses a join as forbidden and, once an invite has gone
out, as rate limited. -/
def remoteRetryFails : RemoteClient :=
  { remoteOK with
    JoinRoom := fun log _ _ _ =>
      if (inviteCalls log).isEmpty then Except.error (matrixError "M_FORBIDDEN")
      else Except.error (matrixError "M_LIMIT_EXCEEDED") }

/-- A remote side whose join call fails before any response arrives. -/
def remoteUnreachable : RemoteClient :=
  { remoteOK with JoinRoom := fun _ _ _ _ => Except.error networkError }

/-- A remote side that resolves every join to the room `!resolved:example.org`. -/
def remoteAlias : RemoteClient :=
  { remoteOK with JoinRoom := fun _ _ _ _ => Except.ok ⟨"!resolved:example.org"⟩ }

/-- A remote side on which registration fails before any response arrives. -/
def remoteNoRegistration : RemoteClient :=
  { remoteOK with Register := fun _ _ _ => some networkError }

/-- A remote side that refuses every join with an error other than forbidden. -/
def remoteJoinRefused : RemoteClient :=
  { remoteOK with JoinRoom := fun _ _ _ _ => Except.error (matrixError "M_UNKNOWN") }

/-- A remote side whose typing call fails. -/
def remoteTypingFails : RemoteClient :=
  { remoteOK with UserTyping := fun _ _ _ _ _ => (none, some networkError) }

/-- A power level document in which `@bob:example.org` has level 50. -/
def levels : PowerLevels := ⟨some [("@bob:example.org", 50)], 0, [], 0, ""⟩

/-- The world in which the identity is registered but not joined and the
document `levels` is cached for the room `!room:example.org`. -/
def cachedNotJoined : World BasicStateStore :=
  ⟨(BasicStateStore.empty.MarkRegistered alice.UserID).SetPowerLevels
      "!room:example.org" levels, []⟩

/-- The world in which the identity is registered and joined and the document
`levels` is cached for the room `!room:example.org`. -/
def cachedJoined : World BasicStateStore :=
  ⟨joined.store.SetPowerLevels "!room:example.org" levels, []⟩

/-- A snapshot format for the basic store in which the text of a snapshot is
the store it was taken of. -/
def snapshotOfStore : Stores.Snapshot BasicStateStore BasicStateStore where
  Encode := fun store => Except.ok store
  Decode := fun text => Except.ok text
  roundTrip := fun _ _ h => by cases h; rfl

/-- A file system on which `os.Create` and the write succeed. -/
def diskOK : Stores.FileSystem BasicStateStore where
  CreateError := fun _ _ => none
  WriteError := fun _ _ _ => none

/-- A file system on which the file can be created but not written. -/
def diskFull : Stores.FileSystem BasicStateStore where
  CreateError := fun _ _ => none
  WriteError := fun disk _ _ => some (GoError.other "no space left on device", disk)

/-- A flat-file store around the empty basic store. -/
def fileStore : Stores.flatfileStore BasicStateStore := ⟨BasicStateStore.empty, "state.json"⟩

end Scenario

/-! ## Registration and the fast paths -/

namespace Appservice

open IntentAPI

section Registration

variable {σ : Type} (S : StateStore σ) (R : RemoteClient) (intent : IntentAPI)

/-- What `EnsureRegistered` leaves behind: nothing at all, one registration
call, or one registration call followed by the `MarkRegistered` write. -/
theorem EnsureRegistered_world (w : World σ) :
    (EnsureRegistered S R intent w).2 = w ∨
    (EnsureRegistered S R intent w).2 = w.call intent.UserID (Call.Register intent.Localpart) ∨
    (EnsureRegistered S R intent w).2 =
      (w.call intent.UserID (Call.Register intent.Localpart)).wrote
        (S.MarkRegistered w.store intent.UserID) (Write.MarkRegistered intent.UserID) := by
  unfold EnsureRegistered Register
  split
  · exact Or.inl rfl
  · split
    · rename_i httpErr w1 heq
      injection heq with h1 h2
      subst h2
      split
      · exact Or.inr (Or.inl rfl)
      · split
        · exact Or.inr (Or.inl rfl)
        · exact Or.inr (Or.inr rfl)
    · rename_i err w1 _ heq
      injection heq with h1 h2
      subst h2
      exact Or.inr (Or.inl rfl)

/-- A registration call that succeeds is not recorded: `EnsureRegistered`
returns success after the one call and the store is the one it started
from. -/
theorem EnsureRegistered_of_register_ok (w : World σ)
    (hN : S.IsRegistered w.store intent.UserID = false)
    (hR : R.Register w.log intent.UserID intent.Localpart = none) :
    EnsureRegistered S R intent w =
      (Res.ret none,
        ⟨w.store, w.log ++ [Event.remote intent.UserID (Call.Register intent.Localpart)]⟩) := by
  simp [EnsureRegistered, Register, hN, hR, World.call]

end Registration

/-- C1 (evaluation at the failing input): on an empty basic store and a remote
side whose registration call succeeds, the first `EnsureRegistered` returns
success without marking the identity registered, and the second call issues a
second registration call. -/
theorem EnsureRegistered_success_not_recorded :
    (EnsureRegistered BasicStateStore.ops Scenario.remoteOK Scenario.alice Scenario.fresh).1
      = Res.ret none ∧
    BasicStateStore.ops.IsRegistered
      (EnsureRegistered BasicStateStore.ops Scenario.remoteOK Scenario.alice Scenario.fresh).2.store
      Scenario.alice.UserID = false ∧
    (EnsureRegistered BasicStateStore.ops Scenario.remoteOK Scenario.alice
      (EnsureRegistered BasicStateStore.ops Scenario.remoteOK Scenario.alice
        Scenario.fresh).2).1 = Res.ret none ∧
    registerCalls
      (EnsureRegistered BasicStateStore.ops Scenario.remoteOK Scenario.alice
        (EnsureRegistered BasicStateStore.ops Scenario.remoteOK Scenario.alice
          Scenario.fresh).2).2.log =
      [Event.remote "@alice:example.org" (Call.Register "alice"),
       Event.remote "@alice:example.org" (Call.Register "alice")] := by
  decide

/-- C2: when the store reports the identity as joined to the room,
`EnsureJoined` returns success and leaves the world as it was (no remote call,
no store write); when the store reports the identity as registered,
`EnsureRegistered` does the same. -/
theorem EnsureJoined_EnsureRegistered_store_hit {σ : Type} (S : StateStore σ)
    (R : RemoteClient) (intent : IntentAPI) (roomID : String) (w : World σ) :
    (S.IsInRoom w.store roomID intent.UserID = true →
      EnsureJoined S R intent roomID w = (Res.ret none, w)) ∧
    (S.IsRegistered w.store intent.UserID = true →
      EnsureRegistered S R intent w = (Res.ret none, w)) := by
  constructor
  · intro h
    simp [EnsureJoined, h]
  · intro h
    simp [EnsureRegistered, h]

/-- C2 at a concrete input: a joined and registered identity on a remote side
that would answer every call. -/
theorem EnsureJoined_EnsureRegistered_store_hit_witness :
    (EnsureJoined BasicStateStore.ops Scenario.remoteOK Scenario.alice "!room:example.org"
        Scenario.joined).1 = Res.ret none ∧
    (EnsureJoined BasicStateStore.ops Scenario.remoteOK Scenario.alice "!room:example.org"
        Scenario.joined).2.log = [] ∧
    (EnsureRegistered BasicStateStore.ops Scenario.remoteOK Scenario.alice
        Scenario.joined).2.log = [] := by
  have h := EnsureJoined_EnsureRegistered_store_hit BasicStateStore.ops Scenario.remoteOK
    Scenario.alice "!room:example.org" Scenario.joined
  have h1 := h.1 (by decide)
  have h2 := h.2 (by decide)
  rw [h1, h2]
  exact ⟨rfl, rfl, rfl⟩

end Appservice

/-! ## Joining -/

namespace Appservice

open IntentAPI

section Joining

variable {σ : Type} (S : StateStore σ) (R : RemoteClient) (intent : IntentAPI)

/-- The log `EnsureRegistered` leaves behind extends the old one by entries
that are neither joins nor invites nor membership writes, and the store is
the old one or the old one with the identity marked registered. -/
theorem EnsureRegistered_frame (w : World σ) :
    ∃ new, (EnsureRegistered S R intent w).2.log = w.log ++ new ∧
      joinCalls new = [] ∧ inviteCalls new = [] ∧ membershipWrites new = [] ∧
      ((EnsureRegistered S R intent w).2.store = w.store ∨
        (EnsureRegistered S R intent w).2.store = S.MarkRegistered w.store intent.UserID) := by
  rcases EnsureRegistered_world S R intent w with h | h | h
  · exact ⟨[], by simp [h], rfl, rfl, rfl, Or.inl (by rw [h])⟩
  · exact ⟨[Event.remote intent.UserID (Call.Register intent.Localpart)],
      by rw [h]; rfl, rfl, rfl, rfl, Or.inl (by rw [h]; rfl)⟩
  · exact ⟨[Event.remote intent.UserID (Call.Register intent.Localpart),
        Event.store (Write.MarkRegistered intent.UserID)],
      by rw [h]; simp [World.call, World.wrote], rfl, rfl, rfl, Or.inr (by rw [h]; rfl)⟩

/-- The paths of `EnsureJoined`: the store hit, the three outcomes of
`EnsureRegistered`, and after a successful `EnsureRegistered` the outcomes of
the first join, of the invite and of the retried join, each with the result
and the world of the run. -/
theorem EnsureJoined_paths (roomID : String) (w : World σ) :
    (S.IsInRoom w.store roomID intent.UserID = true ∧
      EnsureJoined S R intent roomID w = (Res.ret none, w)) ∨
    (S.IsInRoom w.store roomID intent.UserID = false ∧
      ∃ w1 : World σ,
        (∃ v, EnsureRegistered S R intent w = (Res.panic v, w1) ∧
          EnsureJoined S R intent roomID w = (Res.panic v, w1)) ∨
        (∃ err, EnsureRegistered S R intent w = (Res.ret (some err), w1) ∧
          EnsureJoined S R intent roomID w = (Res.ret (some err), w1)) ∨
        (EnsureRegistered S R intent w = (Res.ret none, w1) ∧
          ((∃ resp, R.JoinRoom w1.log intent.UserID roomID "" = Except.ok resp ∧
              EnsureJoined S R intent roomID w =
                (Res.ret none,
                  ⟨S.SetMembership w1.store resp.RoomID intent.UserID "join",
                    w1.log ++ [Event.remote intent.UserID (Call.JoinRoom roomID ""),
                      Event.store (Write.SetMembership resp.RoomID intent.UserID "join")]⟩)) ∨
            (∃ err, R.JoinRoom w1.log intent.UserID roomID "" = Except.error err ∧
              (∀ httpErr, err ≠ GoError.http httpErr) ∧
              EnsureJoined S R intent roomID w =
                (Res.ret (some (GoError.http zeroHTTPError)),
                  ⟨w1.store, w1.log ++ [Event.remote intent.UserID (Call.JoinRoom roomID "")]⟩)) ∨
            (∃ httpErr,
              R.JoinRoom w1.log intent.UserID roomID "" = Except.error (GoError.http httpErr) ∧
              ((httpErr.RespError = none ∧
                  EnsureJoined S R intent roomID w =
                    (Res.panic nilDereference,
                      ⟨w1.store,
                        w1.log ++ [Event.remote intent.UserID (Call.JoinRoom roomID "")]⟩)) ∨
                (∃ respError, httpErr.RespError = some respError ∧
                  (respError.ErrCode ≠ "M_FORBIDDEN" ∨ intent.bot = none) ∧
                  EnsureJoined S R intent roomID w =
                    (Res.ret (some (GoError.http httpErr)),
                      ⟨w1.store,
                        w1.log ++ [Event.remote intent.UserID (Call.JoinRoom roomID "")]⟩)) ∨
                (∃ respError bot, httpErr.RespError = some respError ∧
                  respError.ErrCode = "M_FORBIDDEN" ∧ intent.bot = some bot ∧
                  ((∃ inviteErr,
                      R.InviteUser
                        (w1.log ++ [Event.remote intent.UserID (Call.JoinRoom roomID "")])
                        bot roomID intent.UserID = some inviteErr ∧
                      EnsureJoined S R intent roomID w =
                        (Res.ret (some (GoError.http httpErr)),
                          ⟨w1.store,
                            w1.log ++ [Event.remote intent.UserID (Call.JoinRoom roomID ""),
                              Event.remote bot (Call.InviteUser roomID intent.UserID)]⟩)) ∨
                    (R.InviteUser
                        (w1.log ++ [Event.remote intent.UserID (Call.JoinRoom roomID "")])
                        bot roomID intent.UserID = none ∧
                      ((∃ err,
                          R.JoinRoom
                            (w1.log ++ [Event.remote intent.UserID (Call.JoinRoom roomID ""),
                              Event.remote bot (Call.InviteUser roomID intent.UserID)])
                            intent.UserID roomID "" = Except.error err ∧
                          EnsureJoined S R intent roomID w =
                            (Res.ret (some err),
                              ⟨w1.store,
                                w1.log ++ [Event.remote intent.UserID (Call.JoinRoom roomID ""),
                                  Event.remote bot (Call.InviteUser roomID intent.UserID),
                                  Event.remote intent.UserID (Call.JoinRoom roomID "")]⟩)) ∨
                        (∃ resp,
                          R.JoinRoom
                            (w1.log ++ [Event.remote intent.UserID (Call.JoinRoom roomID ""),
                              Event.remote bot (Call.InviteUser roomID intent.UserID)])
                            intent.UserID roomID "" = Except.ok resp ∧
                          EnsureJoined S R intent roomID w =
                            (Res.ret none,
                              ⟨S.SetMembership w1.store resp.RoomID intent.UserID "join",
                                w1.log ++ [Event.remote intent.UserID (Call.JoinRoom roomID ""),
                                  Event.remote bot (Call.InviteUser roomID intent.UserID),
                                  Event.remote intent.UserID (Call.JoinRoom roomID ""),
                                  Event.store
                                    (Write.SetMembership resp.RoomID intent.UserID
                                      "join")]⟩))))))))))) := by
  by_cases hN : S.IsInRoom w.store roomID intent.UserID = true
  · left
    exact ⟨hN, by simp [EnsureJoined, hN]⟩
  right
  have hN : S.IsInRoom w.store roomID intent.UserID = false := by simpa using hN
  refine ⟨hN, ?_⟩
  rcases hR : EnsureRegistered S R intent w with ⟨r, w1⟩
  refine ⟨w1, ?_⟩
  rcases r with ⟨_ | err⟩ | v
  · right; right
    refine ⟨rfl, ?_⟩
    rcases hJ : R.JoinRoom w1.log intent.UserID roomID "" with err | resp
    · cases err with
      | http httpErr =>
        right; right
        refine ⟨httpErr, rfl, ?_⟩
        rcases hE : httpErr.RespError with _ | respError
        · left
          exact ⟨rfl, by simp [EnsureJoined, hN, hR, hJ, hE, World.call]⟩
        · by_cases hC : respError.ErrCode = "M_FORBIDDEN"
          · rcases hB : intent.bot with _ | bot
            · right; left
              exact ⟨respError, rfl, Or.inr rfl,
                by simp [EnsureJoined, hN, hR, hJ, hE, hC, hB, World.call]⟩
            · right; right
              refine ⟨respError, bot, rfl, hC, rfl, ?_⟩
              rcases hI : R.InviteUser
                  (w1.log ++ [Event.remote intent.UserID (Call.JoinRoom roomID "")])
                  bot roomID intent.UserID with _ | inviteErr
              · right
                refine ⟨rfl, ?_⟩
                rcases hJ2 : R.JoinRoom
                    (w1.log ++ [Event.remote intent.UserID (Call.JoinRoom roomID ""),
                      Event.remote bot (Call.InviteUser roomID intent.UserID)])
                    intent.UserID roomID "" with err | resp
                · left
                  exact ⟨err, rfl,
                    by simp [EnsureJoined, hN, hR, hJ, hE, hC, hB, hI, hJ2, World.call]⟩
                · right
                  exact ⟨resp, rfl,
                    by simp [EnsureJoined, hN, hR, hJ, hE, hC, hB, hI, hJ2, World.call,
                      World.wrote]⟩
              · left
                exact ⟨inviteErr, rfl,
                  by simp [EnsureJoined, hN, hR, hJ, hE, hC, hB, hI, World.call]⟩
          · right; left
            exact ⟨respError, rfl, Or.inl hC,
              by simp [EnsureJoined, hN, hR, hJ, hE, hC, World.call]⟩
      | wrapped text inner =>
        right; left
        exact ⟨_, rfl, by intro h; simp, by simp [EnsureJoined, hN, hR, hJ, World.call]⟩
      | other text =>
        right; left
        exact ⟨_, rfl, by intro h; simp, by simp [EnsureJoined, hN, hR, hJ, World.call]⟩
    · left
      exact ⟨resp, rfl, by simp [EnsureJoined, hN, hR, hJ, World.call, World.wrote]⟩
  · right; left
    exact ⟨err, rfl, by simp [EnsureJoined, hN, hR]⟩
  · left
    exact ⟨v, rfl, by simp [EnsureJoined, hN, hR]⟩

/-- The frame of `EnsureRegistered`, read off a known result. -/
theorem EnsureRegistered_frame_of {w w1 : World σ} {r : Res (Option GoError)}
    (h : EnsureRegistered S R intent w = (r, w1)) :
    ∃ new, w1.log = w.log ++ new ∧
      joinCalls new = [] ∧ inviteCalls new = [] ∧ membershipWrites new = [] ∧
      (w1.store = w.store ∨ w1.store = S.MarkRegistered w.store intent.UserID) := by
  have hf := EnsureRegistered_frame S R intent w
  rw [h] at hf
  exact hf

end Joining

/-- The join calls of a log that was extended. -/
theorem joinCalls_append (l1 l2 : List Event) :
    joinCalls (l1 ++ l2) = joinCalls l1 ++ joinCalls l2 := by
  simp [joinCalls]

/-- The invite calls of a log that was extended. -/
theorem inviteCalls_append (l1 l2 : List Event) :
    inviteCalls (l1 ++ l2) = inviteCalls l1 ++ inviteCalls l2 := by
  simp [inviteCalls]

/-- The membership writes of a log that was extended. -/
theorem membershipWrites_append (l1 l2 : List Event) :
    membershipWrites (l1 ++ l2) = membershipWrites l1 ++ membershipWrites l2 := by
  simp [membershipWrites]

/-- C5: a run of `EnsureJoined` that issues a join and returns success ends
with the successful join call followed by the one membership write
`SetMembership(resp.RoomID, intent.UserID, "join")`, where `resp` is the
response of that join call; a run that returns an error makes no membership
write and leaves the store as it was, up to the registration mark. -/
theorem EnsureJoined_membership_recorded {σ : Type} (S : StateStore σ) (R : RemoteClient)
    (intent : IntentAPI) (roomID : String) (w : World σ) :
    (∀ w1, EnsureJoined S R intent roomID w = (Res.ret none, w1) →
      (joinCalls w.log).length < (joinCalls w1.log).length →
      ∃ (before : World σ) (resp : RespJoinRoom),
        R.JoinRoom before.log intent.UserID roomID "" = Except.ok resp ∧
        w1.log = before.log ++
          [Event.remote intent.UserID (Call.JoinRoom roomID ""),
           Event.store (Write.SetMembership resp.RoomID intent.UserID "join")] ∧
        w1.store = S.SetMembership before.store resp.RoomID intent.UserID "join" ∧
        membershipWrites before.log = membershipWrites w.log ∧
        membershipWrites w1.log = membershipWrites w.log ++
          [Event.store (Write.SetMembership resp.RoomID intent.UserID "join")] ∧
        (before.store = w.store ∨ before.store = S.MarkRegistered w.store intent.UserID)) ∧
    (∀ err w1, EnsureJoined S R intent roomID w = (Res.ret (some err), w1) →
      membershipWrites w1.log = membershipWrites w.log ∧
      (w1.store = w.store ∨ w1.store = S.MarkRegistered w.store intent.UserID)) := by
  rcases EnsureJoined_paths S R intent roomID w with ⟨_, hE⟩ | ⟨_, w1, h⟩
  · rw [hE]
    constructor
    · intro w2 hrun hjoin
      cases hrun
      exact absurd hjoin (lt_irrefl _)
    · intro err w2 hrun
      cases hrun
  rcases h with ⟨v, hR, hE⟩ | ⟨err, hR, hE⟩ | ⟨hR, h⟩
  · rw [hE]
    exact ⟨fun w2 hrun => (by cases hrun), fun err w2 hrun => by cases hrun⟩
  · rw [hE]
    obtain ⟨new, hlog, -, -, hm, hstore⟩ := EnsureRegistered_frame_of S R intent hR
    refine ⟨fun w2 hrun => (by cases hrun), fun err2 w2 hrun => ?_⟩
    cases hrun
    exact ⟨hlog ▸ (by rw [membershipWrites_append, hm, List.append_nil]), hstore⟩
  obtain ⟨new, hlog, -, -, hm, hstore⟩ := EnsureRegistered_frame_of S R intent hR
  have hw1 : membershipWrites w1.log = membershipWrites w.log := by
    rw [hlog, membershipWrites_append, hm, List.append_nil]
  rcases h with ⟨resp, hJ, hE⟩ | ⟨err, hJ, -, hE⟩ | ⟨httpErr, hJ, h⟩
  · rw [hE]
    refine ⟨fun w2 hrun _ => ?_, fun err w2 hrun => by cases hrun⟩
    cases hrun
    refine ⟨w1, resp, hJ, rfl, rfl, hw1, ?_, hstore⟩
    rw [membershipWrites_append, hw1]; simp [membershipWrites]
  · rw [hE]
    refine ⟨fun w2 hrun => (by cases hrun), fun err2 w2 hrun => ?_⟩
    cases hrun
    exact ⟨(by rw [membershipWrites_append, hw1]; simp [membershipWrites]), hstore⟩
  rcases h with ⟨-, hE⟩ | ⟨respError, -, -, hE⟩ | ⟨respError, bot, -, -, -, h⟩
  · rw [hE]
    exact ⟨fun w2 hrun => (by cases hrun), fun err w2 hrun => by cases hrun⟩
  · rw [hE]
    refine ⟨fun w2 hrun => (by cases hrun), fun err2 w2 hrun => ?_⟩
    cases hrun
    exact ⟨(by rw [membershipWrites_append, hw1]; simp [membershipWrites]), hstore⟩
  rcases h with ⟨inviteErr, -, hE⟩ | ⟨-, ⟨err, -, hE⟩ | ⟨resp, hJ2, hE⟩⟩
  · rw [hE]
    refine ⟨fun w2 hrun => (by cases hrun), fun err2 w2 hrun => ?_⟩
    cases hrun
    exact ⟨(by rw [membershipWrites_append, hw1]; simp [membershipWrites]), hstore⟩
  · rw [hE]
    refine ⟨fun w2 hrun => (by cases hrun), fun err2 w2 hrun => ?_⟩
    cases hrun
    exact ⟨(by rw [membershipWrites_append, hw1]; simp [membershipWrites]), hstore⟩
  · rw [hE]
    refine ⟨fun w2 hrun _ => ?_, fun err w2 hrun => by cases hrun⟩
    cases hrun
    refine ⟨⟨w1.store, w1.log ++ [Event.remote intent.UserID (Call.JoinRoom roomID ""),
      Event.remote bot (Call.InviteUser roomID intent.UserID)]⟩, resp, hJ2, ?_, rfl, ?_, ?_,
      hstore⟩
    · simp
    · rw [membershipWrites_append, hw1]; simp [membershipWrites]
    · rw [membershipWrites_append, hw1]; simp [membershipWrites]

/-- C5 at concrete inputs: a join by alias is recorded under the room id the
server resolved it to, and a join that fails writes no membership. -/
theorem EnsureJoined_membership_recorded_witness :
    membershipWrites
      (EnsureJoined BasicStateStore.ops Scenario.remoteAlias Scenario.alice "#alias:example.org"
        Scenario.registered).2.log =
      [Event.store (Write.SetMembership "!resolved:example.org" "@alice:example.org" "join")] ∧
    membershipWrites
      (EnsureJoined BasicStateStore.ops Scenario.remoteUnreachable Scenario.alice
        "#alias:example.org" Scenario.registered).2.log = [] := by
  constructor
  · obtain ⟨before, resp, hJ, -, -, -, hm, -⟩ :=
      (EnsureJoined_membership_recorded BasicStateStore.ops Scenario.remoteAlias Scenario.alice
        "#alias:example.org" Scenario.registered).1
        (EnsureJoined BasicStateStore.ops Scenario.remoteAlias Scenario.alice
          "#alias:example.org" Scenario.registered).2 rfl (by decide)
    have hresp : resp = ⟨"!resolved:example.org"⟩ := by
      simp [Scenario.remoteAlias, Scenario.remoteOK] at hJ
      exact hJ.symm
    rw [hm, hresp]
    rfl
  · exact ((EnsureJoined_membership_recorded BasicStateStore.ops Scenario.remoteUnreachable
      Scenario.alice "#alias:example.org" Scenario.registered).2
        (GoError.http zeroHTTPError)
        (EnsureJoined BasicStateStore.ops Scenario.remoteUnreachable Scenario.alice
          "#alias:example.org" Scenario.registered).2 rfl).1

/-- C3 (counterexample): the identity is registered and not joined, the first
join is refused as forbidden and a bot is configured, yet the failing invite
ends the run: the remote calls are one join and one invite, and no join is
retried. -/
theorem EnsureJoined_invite_failure_no_retry :
    BasicStateStore.ops.IsInRoom Scenario.registered.store "!room:example.org"
      Scenario.alice.UserID = false ∧
    (EnsureRegistered BasicStateStore.ops Scenario.remoteInviteFails Scenario.alice
      Scenario.registered).1 = Res.ret none ∧
    Scenario.remoteInviteFails.JoinRoom [] Scenario.alice.UserID "!room:example.org" ""
      = Except.error (Scenario.matrixError "M_FORBIDDEN") ∧
    Scenario.alice.bot = some "@bot:example.org" ∧
    remoteCalls
      (EnsureJoined BasicStateStore.ops Scenario.remoteInviteFails Scenario.alice
        "!room:example.org" Scenario.registered).2.log =
      [Event.remote "@alice:example.org" (Call.JoinRoom "!room:example.org" ""),
       Event.remote "@bot:example.org" (Call.InviteUser "!room:example.org" "@alice:example.org")] ∧
    (joinCalls
      (EnsureJoined BasicStateStore.ops Scenario.remoteInviteFails Scenario.alice
        "!room:example.org" Scenario.registered).2.log).length = 1 := by
  refine ⟨by decide, by decide, rfl, rfl, by decide, by decide⟩

/-- C3 (amended): no run of `EnsureJoined` issues more than two joins or more
than one invite.  When the identity is not joined, registration is ensured,
the first join fails as forbidden and a bot is configured, exactly one invite
goes out from the bot; if it fails the run ends there, with no retried join;
if it succeeds exactly one retried join follows and nothing further, the
retried join's error is the error returned when it fails, and the run returns
success (after the membership write) when it succeeds. -/
theorem EnsureJoined_recovery {σ : Type} (S : StateStore σ) (R : RemoteClient)
    (intent : IntentAPI) (roomID : String) (w : World σ) :
    ((joinCalls (EnsureJoined S R intent roomID w).2.log).length
        ≤ (joinCalls w.log).length + 2 ∧
      (inviteCalls (EnsureJoined S R intent roomID w).2.log).length
        ≤ (inviteCalls w.log).length + 1) ∧
    (∀ (w1 : World σ) (httpErr : HTTPError) (respError : RespError) (bot : String),
      S.IsInRoom w.store roomID intent.UserID = false →
      EnsureRegistered S R intent w = (Res.ret none, w1) →
      R.JoinRoom w1.log intent.UserID roomID "" = Except.error (GoError.http httpErr) →
      httpErr.RespError = some respError →
      respError.ErrCode = "M_FORBIDDEN" →
      intent.bot = some bot →
      (∀ inviteErr,
        R.InviteUser (w1.log ++ [Event.remote intent.UserID (Call.JoinRoom roomID "")])
          bot roomID intent.UserID = some inviteErr →
        (EnsureJoined S R intent roomID w).2.log =
          w1.log ++ [Event.remote intent.UserID (Call.JoinRoom roomID ""),
            Event.remote bot (Call.InviteUser roomID intent.UserID)]) ∧
      (R.InviteUser (w1.log ++ [Event.remote intent.UserID (Call.JoinRoom roomID "")])
          bot roomID intent.UserID = none →
        (∀ err,
          R.JoinRoom
            (w1.log ++ [Event.remote intent.UserID (Call.JoinRoom roomID ""),
              Event.remote bot (Call.InviteUser roomID intent.UserID)])
            intent.UserID roomID "" = Except.error err →
          EnsureJoined S R intent roomID w =
            (Res.ret (some err),
              ⟨w1.store,
                w1.log ++ [Event.remote intent.UserID (Call.JoinRoom roomID ""),
                  Event.remote bot (Call.InviteUser roomID intent.UserID),
                  Event.remote intent.UserID (Call.JoinRoom roomID "")]⟩)) ∧
        (∀ resp,
          R.JoinRoom
            (w1.log ++ [Event.remote intent.UserID (Call.JoinRoom roomID ""),
              Event.remote bot (Call.InviteUser roomID intent.UserID)])
            intent.UserID roomID "" = Except.ok resp →
          EnsureJoined S R intent roomID w =
            (Res.ret none,
              ⟨S.SetMembership w1.store resp.RoomID intent.UserID "join",
                w1.log ++ [Event.remote intent.UserID (Call.JoinRoom roomID ""),
                  Event.remote bot (Call.InviteUser roomID intent.UserID),
                  Event.remote intent.UserID (Call.JoinRoom roomID ""),
                  Event.store (Write.SetMembership resp.RoomID intent.UserID "join")]⟩)))) := by
  constructor
  · rcases EnsureJoined_paths S R intent roomID w with ⟨_, hE⟩ | ⟨_, w1, h⟩
    · rw [hE]
      exact ⟨Nat.le_add_right _ _, Nat.le_add_right _ _⟩
    have frame : ∀ r, EnsureRegistered S R intent w = (r, w1) →
        joinCalls w1.log = joinCalls w.log ∧ inviteCalls w1.log = inviteCalls w.log := by
      intro r hR
      obtain ⟨new, hlog, hj, hi, -, -⟩ := EnsureRegistered_frame_of S R intent hR
      rw [hlog, joinCalls_append, inviteCalls_append, hj, hi]
      simp
    rcases h with ⟨v, hR, hE⟩ | ⟨err, hR, hE⟩ | ⟨hR, h⟩
    · rw [hE, (frame _ hR).1, (frame _ hR).2]
      exact ⟨Nat.le_add_right _ _, Nat.le_add_right _ _⟩
    · rw [hE, (frame _ hR).1, (frame _ hR).2]
      exact ⟨Nat.le_add_right _ _, Nat.le_add_right _ _⟩
    obtain ⟨hj, hi⟩ := frame _ hR
    rcases h with ⟨resp, -, hE⟩ | ⟨err, -, -, hE⟩ | ⟨httpErr, -, h⟩
    · rw [hE]
      simp [joinCalls_append, inviteCalls_append, hj, hi]
      simp [joinCalls, inviteCalls]
    · rw [hE]
      simp [joinCalls_append, inviteCalls_append, hj, hi]
      simp [joinCalls, inviteCalls]
    rcases h with ⟨-, hE⟩ | ⟨respError, -, -, hE⟩ | ⟨respError, bot, -, -, -, h⟩
    · rw [hE]
      simp [joinCalls_append, inviteCalls_append, hj, hi]
      simp [joinCalls, inviteCalls]
    · rw [hE]
      simp [joinCalls_append, inviteCalls_append, hj, hi]
      simp [joinCalls, inviteCalls]
    rcases h with ⟨inviteErr, -, hE⟩ | ⟨-, ⟨err, -, hE⟩ | ⟨resp, -, hE⟩⟩
    · rw [hE]
      simp [joinCalls_append, inviteCalls_append, hj, hi]
      simp [joinCalls, inviteCalls]
    · rw [hE]
      simp [joinCalls_append, inviteCalls_append, hj, hi]
      simp [joinCalls, inviteCalls]
    · rw [hE]
      simp [joinCalls_append, inviteCalls_append, hj, hi]
      simp [joinCalls, inviteCalls]
  · intro w1 httpErr respError bot hN hR hJ hE hC hB
    refine ⟨fun inviteErr hI => ?_, fun hI => ⟨fun err hJ2 => ?_, fun resp hJ2 => ?_⟩⟩
    · simp [EnsureJoined, hN, hR, hJ, hE, hC, hB, hI, World.call]
    · simp [EnsureJoined, hN, hR, hJ, hE, hC, hB, hI, hJ2, World.call]
    · simp [EnsureJoined, hN, hR, hJ, hE, hC, hB, hI, hJ2, World.call, World.wrote]

/-- C3 (amended) at concrete inputs: on a remote side that lets the join
through once the bot has invited, the run is join, invite, join and the
membership write; on one that refuses the retried join as rate limited, the
rate limit error is returned. -/
theorem EnsureJoined_recovery_witness :
    EnsureJoined BasicStateStore.ops Scenario.remoteInviteOnly Scenario.alice
        "!room:example.org" Scenario.registered =
      (Res.ret none,
        ⟨BasicStateStore.ops.SetMembership Scenario.registered.store "!room:example.org"
            "@alice:example.org" "join",
          [Event.remote "@alice:example.org" (Call.JoinRoom "!room:example.org" ""),
            Event.remote "@bot:example.org"
              (Call.InviteUser "!room:example.org" "@alice:example.org"),
            Event.remote "@alice:example.org" (Call.JoinRoom "!room:example.org" ""),
            Event.store
              (Write.SetMembership "!room:example.org" "@alice:example.org" "join")]⟩) ∧
    (EnsureJoined BasicStateStore.ops Scenario.remoteRetryFails Scenario.alice
        "!room:example.org" Scenario.registered).1 =
      Res.ret (some (Scenario.matrixError "M_LIMIT_EXCEEDED")) := by
  constructor
  · exact (((EnsureJoined_recovery BasicStateStore.ops Scenario.remoteInviteOnly Scenario.alice
      "!room:example.org" Scenario.registered).2 Scenario.registered
        ⟨some ⟨"M_FORBIDDEN", ""⟩, "", 403⟩ ⟨"M_FORBIDDEN", ""⟩ "@bot:example.org"
        (by decide) rfl rfl rfl rfl rfl).2 rfl).2 ⟨"!room:example.org"⟩ rfl
  · rw [(((EnsureJoined_recovery BasicStateStore.ops Scenario.remoteRetryFails Scenario.alice
      "!room:example.org" Scenario.registered).2 Scenario.registered
        ⟨some ⟨"M_FORBIDDEN", ""⟩, "", 403⟩ ⟨"M_FORBIDDEN", ""⟩ "@bot:example.org"
        (by decide) rfl rfl rfl rfl rfl).2 rfl).1
        (Scenario.matrixError "M_LIMIT_EXCEEDED") rfl]

/-- C4 (evaluation at the failing inputs): when the first join fails with an
error that is not an `HTTPError`, `EnsureJoined` returns the zero `HTTPError`
and not the join's error; when the invite fails, it returns the first join's
forbidden error and not the invite's error. -/
theorem EnsureJoined_error_not_passed_through :
    (Scenario.remoteUnreachable.JoinRoom [] Scenario.alice.UserID "!room:example.org" ""
        = Except.error Scenario.networkError ∧
      (EnsureJoined BasicStateStore.ops Scenario.remoteUnreachable Scenario.alice
        "!room:example.org" Scenario.registered).1 =
          Res.ret (some (GoError.http zeroHTTPError)) ∧
      (EnsureJoined BasicStateStore.ops Scenario.remoteUnreachable Scenario.alice
        "!room:example.org" Scenario.registered).1 ≠ Res.ret (some Scenario.networkError)) ∧
    (Scenario.remoteInviteFails.InviteUser
        [Event.remote "@alice:example.org" (Call.JoinRoom "!room:example.org" "")]
        "@bot:example.org" "!room:example.org" "@alice:example.org"
        = some (Scenario.matrixError "M_UNKNOWN") ∧
      (EnsureJoined BasicStateStore.ops Scenario.remoteInviteFails Scenario.alice
        "!room:example.org" Scenario.registered).1 =
          Res.ret (some (Scenario.matrixError "M_FORBIDDEN")) ∧
      (EnsureJoined BasicStateStore.ops Scenario.remoteInviteFails Scenario.alice
        "!room:example.org" Scenario.registered).1 ≠
          Res.ret (some (Scenario.matrixError "M_UNKNOWN"))) := by
  refine ⟨⟨rfl, by decide, by decide⟩, ⟨rfl, by decide, by decide⟩⟩

end Appservice

/-! ## Sending -/

namespace Appservice

open IntentAPI

/-- C6: each sending operation is join gated: after an `EnsureJoined` error it
returns that error with a nil response and issues no client call, and after
an `EnsureJoined` success it issues exactly the one corresponding client call
with its own arguments and returns the client's result unchanged.  The same
holds of the read `StateEvent`, which returns an error only. -/
theorem sends_join_gated {σ : Type} (S : StateStore σ) (R : RemoteClient) (intent : IntentAPI)
    (roomID eventType stateKey text body url eventID roomName avatarURL topic : String)
    (content : Content) (ts : Int) (req : List ReqRedact) :
    JoinGated S R intent roomID (SendMessageEvent S R intent roomID eventType content)
      (Call.SendMessageEvent roomID eventType content none) ∧
    JoinGated S R intent roomID (SendMassagedMessageEvent S R intent roomID eventType content ts)
      (Call.SendMessageEvent roomID eventType content (some ts)) ∧
    JoinGated S R intent roomID (SendStateEvent S R intent roomID eventType stateKey content)
      (Call.SendStateEvent roomID eventType stateKey content) ∧
    JoinGated S R intent roomID
      (SendMassagedStateEvent S R intent roomID eventType stateKey content ts)
      (Call.SendMassagedStateEvent roomID eventType stateKey content ts) ∧
    JoinGated S R intent roomID (SendText S R intent roomID text) (Call.SendText roomID text) ∧
    JoinGated S R intent roomID (SendImage S R intent roomID body url)
      (Call.SendImage roomID body url) ∧
    JoinGated S R intent roomID (SendVideo S R intent roomID body url)
      (Call.SendVideo roomID body url) ∧
    JoinGated S R intent roomID (SendNotice S R intent roomID text)
      (Call.SendNotice roomID text) ∧
    JoinGated S R intent roomID (RedactEvent S R intent roomID eventID req)
      (Call.RedactEvent roomID eventID req) ∧
    JoinGated S R intent roomID (SetRoomName S R intent roomID roomName)
      (Call.SendStateEvent roomID StateRoomName "" (Content.object [("name", roomName)])) ∧
    JoinGated S R intent roomID (SetRoomAvatar S R intent roomID avatarURL)
      (Call.SendStateEvent roomID StateRoomAvatar "" (Content.object [("url", avatarURL)])) ∧
    JoinGated S R intent roomID (SetRoomTopic S R intent roomID topic)
      (Call.SendStateEvent roomID StateTopic "" (Content.object [("topic", topic)])) ∧
    (∀ w : World σ,
      (∀ err w1, EnsureJoined S R intent roomID w = (Res.ret (some err), w1) →
        StateEvent S R intent roomID eventType stateKey content w =
          (Res.ret (some err, content), w1)) ∧
      (∀ w1, EnsureJoined S R intent roomID w = (Res.ret none, w1) →
        StateEvent S R intent roomID eventType stateKey content w =
          (Res.ret (R.StateEvent w1.log intent.UserID roomID eventType stateKey content),
            ⟨w1.store,
              w1.log ++ [Event.remote intent.UserID
                (Call.StateEvent roomID eventType stateKey content)]⟩))) := by
  refine ⟨?_, ?_, ?_, ?_, ?_, ?_, ?_, ?_, ?_, ?_, ?_, ?_, ?_⟩
  · exact fun w => ⟨fun err w1 h => by simp [SendMessageEvent, h],
      fun w1 h => by simp [SendMessageEvent, h, clientSend, World.call]⟩
  · exact fun w => ⟨fun err w1 h => by simp [SendMassagedMessageEvent, h],
      fun w1 h => by simp [SendMassagedMessageEvent, h, clientSend, World.call]⟩
  · exact fun w => ⟨fun err w1 h => by simp [SendStateEvent, h],
      fun w1 h => by simp [SendStateEvent, h, clientSend, World.call]⟩
  · exact fun w => ⟨fun err w1 h => by simp [SendMassagedStateEvent, h],
      fun w1 h => by simp [SendMassagedStateEvent, h, clientSend, World.call]⟩
  · exact fun w => ⟨fun err w1 h => by simp [SendText, h],
      fun w1 h => by simp [SendText, h, clientSend, World.call]⟩
  · exact fun w => ⟨fun err w1 h => by simp [SendImage, h],
      fun w1 h => by simp [SendImage, h, clientSend, World.call]⟩
  · exact fun w => ⟨fun err w1 h => by simp [SendVideo, h],
      fun w1 h => by simp [SendVideo, h, clientSend, World.call]⟩
  · exact fun w => ⟨fun err w1 h => by simp [SendNotice, h],
      fun w1 h => by simp [SendNotice, h, clientSend, World.call]⟩
  · exact fun w => ⟨fun err w1 h => by simp [RedactEvent, h],
      fun w1 h => by simp [RedactEvent, h, clientSend, World.call]⟩
  · exact fun w => ⟨fun err w1 h => by simp [SetRoomName, SendStateEvent, h],
      fun w1 h => by simp [SetRoomName, SendStateEvent, h, clientSend, World.call]⟩
  · exact fun w => ⟨fun err w1 h => by simp [SetRoomAvatar, SendStateEvent, h],
      fun w1 h => by simp [SetRoomAvatar, SendStateEvent, h, clientSend, World.call]⟩
  · exact fun w => ⟨fun err w1 h => by simp [SetRoomTopic, SendStateEvent, h],
      fun w1 h => by simp [SetRoomTopic, SendStateEvent, h, clientSend, World.call]⟩
  · exact fun w => ⟨fun err w1 h => by simp [StateEvent, h],
      fun w1 h => by simp [StateEvent, h, World.call]⟩

/-- C6 at concrete inputs: a text sent by a registered identity that is not yet
joined goes out after the join, and a text for a room that cannot be joined is
not sent: the join's error comes back with a nil response. -/
theorem sends_join_gated_witness :
    SendText BasicStateStore.ops Scenario.remoteOK Scenario.alice "!room:example.org" "hello"
        Scenario.registered =
      (Res.ret (some ⟨"$event"⟩, none),
        ⟨BasicStateStore.ops.SetMembership Scenario.registered.store "!room:example.org"
            "@alice:example.org" "join",
          [Event.remote "@alice:example.org" (Call.JoinRoom "!room:example.org" ""),
            Event.store (Write.SetMembership "!room:example.org" "@alice:example.org" "join"),
            Event.remote "@alice:example.org" (Call.SendText "!room:example.org" "hello")]⟩) ∧
    SendText BasicStateStore.ops Scenario.remoteJoinRefused Scenario.alice "!room:example.org"
        "hello" Scenario.registered =
      (Res.ret (none, some (Scenario.matrixError "M_UNKNOWN")),
        ⟨Scenario.registered.store,
          [Event.remote "@alice:example.org" (Call.JoinRoom "!room:example.org" "")]⟩) := by
  constructor
  · exact ((sends_join_gated BasicStateStore.ops Scenario.remoteOK Scenario.alice
      "!room:example.org" "" "" "hello" "" "" "" "" "" "" (Content.json "") 0 []).2.2.2.2.1
        Scenario.registered).2 _ rfl
  · exact ((sends_join_gated BasicStateStore.ops Scenario.remoteJoinRefused Scenario.alice
      "!room:example.org" "" "" "hello" "" "" "" "" "" "" (Content.json "") 0 []).2.2.2.2.1
        Scenario.registered).1 _ _ rfl

/-! ## Typing -/

/-- C7 (counterexample): on a fresh store and a remote side on which
registration fails, `EnsureJoined` returns an error, yet `UserTyping` returns
success and the one remote call of its run is the typing call: no
registration and no join was attempted first. -/
theorem UserTyping_without_EnsureJoined :
    BasicStateStore.ops.IsTyping Scenario.fresh.store "!room:example.org"
      Scenario.alice.UserID = false ∧
    (EnsureJoined BasicStateStore.ops Scenario.remoteNoRegistration Scenario.alice
      "!room:example.org" Scenario.fresh).1 = Res.ret (some Scenario.networkError) ∧
    (UserTyping BasicStateStore.ops Scenario.remoteNoRegistration Scenario.alice
      "!room:example.org" true 5000 Scenario.fresh).1 = Res.ret (some ⟨⟩, none) ∧
    remoteCalls (UserTyping BasicStateStore.ops Scenario.remoteNoRegistration Scenario.alice
      "!room:example.org" true 5000 Scenario.fresh).2.log =
      [Event.remote "@alice:example.org" (Call.UserTyping "!room:example.org" true 5000)] := by
  refine ⟨by decide, by decide, by decide, by decide⟩

/-- C7 (amended): when the cached typing flag differs from the requested one,
`UserTyping` does not run `EnsureJoined`: whatever the store says about
membership, its run issues exactly one remote call, the typing call, and
returns the pair that call returned. -/
theorem UserTyping_not_join_gated {σ : Type} (S : StateStore σ) (R : RemoteClient)
    (intent : IntentAPI) (roomID : String) (typing : Bool) (timeout : Int) (w : World σ)
    (h : S.IsTyping w.store roomID intent.UserID ≠ typing) :
    (UserTyping S R intent roomID typing timeout w).1 =
      Res.ret (R.UserTyping w.log intent.UserID roomID typing timeout) ∧
    remoteCalls (UserTyping S R intent roomID typing timeout w).2.log =
      remoteCalls w.log ++ [Event.remote intent.UserID (Call.UserTyping roomID typing timeout)] := by
  unfold UserTyping
  rw [if_neg h]
  rcases hT : R.UserTyping w.log intent.UserID roomID typing timeout with ⟨resp, _ | err⟩
  · simp [World.call, World.wrote, remoteCalls]
  · simp [World.call, remoteCalls]

/-- C7 (amended) at a concrete input: the identity is neither registered nor
joined and the typing call goes out all the same. -/
theorem UserTyping_not_join_gated_witness :
    remoteCalls (UserTyping BasicStateStore.ops Scenario.remoteOK Scenario.alice
      "!room:example.org" true 5000 Scenario.fresh).2.log =
      [Event.remote "@alice:example.org" (Call.UserTyping "!room:example.org" true 5000)] :=
  (UserTyping_not_join_gated BasicStateStore.ops Scenario.remoteOK Scenario.alice
    "!room:example.org" true 5000 Scenario.fresh (by decide)).2

end Appservice

/-! ## Power levels -/

namespace Appservice

open IntentAPI

/-- No entry of a user is left once its entries are filtered out. -/
theorem lookup_filter_ne (userID : String) (users : List (String × Int)) :
    (users.filter (fun kv => kv.1 != userID)).lookup userID = none := by
  induction users with
  | nil => rfl
  | cons kv rest ih =>
    rw [List.filter_cons]
    by_cases hk : kv.1 = userID
    · have h1 : (kv.1 != userID) = false := by simp [hk]
      rw [h1]
      simpa using ih
    · have h1 : (kv.1 != userID) = true := by simp [hk]
      have hne : (userID == kv.1) = false := by
        simpa using fun h => hk h.symm
      rw [h1, if_pos rfl]
      obtain ⟨k, v⟩ := kv
      rw [List.lookup_cons]
      simp only at hne
      rw [hne]
      exact ih

/-- After a `SetUserLevel` that returned, the user has the level that was
set. -/
theorem GetUserLevel_SetUserLevel (pl pl1 : PowerLevels) (userID : String) (level : Int)
    (h : pl.SetUserLevel userID level = Res.ret pl1) :
    pl1.GetUserLevel userID = level := by
  unfold PowerLevels.SetUserLevel at h
  by_cases hd : level = pl.UsersDefault
  · rw [if_pos hd] at h
    injection h with h
    subst h
    rcases hU : pl.Users with _ | users
    · simp [PowerLevels.GetUserLevel, hU, hd]
    · simp [PowerLevels.GetUserLevel, hU, hd, lookup_filter_ne]
  · rw [if_neg hd] at h
    rcases hU : pl.Users with _ | users
    · rw [hU] at h
      cases h
    · rw [hU] at h
      injection h with h
      subst h
      simp [PowerLevels.GetUserLevel, List.lookup]

/-- On a document with a users map `SetUserLevel` returns. -/
theorem SetUserLevel_of_users (pl : PowerLevels) (users : List (String × Int))
    (userID : String) (level : Int) (hU : pl.Users = some users) :
    ∃ pl1, pl.SetUserLevel userID level = Res.ret pl1 := by
  unfold PowerLevels.SetUserLevel
  by_cases hd : level = pl.UsersDefault
  · exact ⟨_, by rw [if_pos hd]⟩
  · exact ⟨_, by rw [if_neg hd, hU]⟩

/-- On a document whose users map is nil, `SetUserLevel` to a level other than
the one the user has panics. -/
theorem SetUserLevel_nil_users (pl : PowerLevels) (userID : String) (level : Int)
    (hU : pl.Users = none) (hL : pl.GetUserLevel userID ≠ level) :
    pl.SetUserLevel userID level = Res.panic nilMapAssignment := by
  have hd : ¬ level = pl.UsersDefault := by
    intro h
    apply hL
    simp [PowerLevels.GetUserLevel, hU, h]
  unfold PowerLevels.SetUserLevel
  rw [if_neg hd, hU]

section Fetch

variable {σ : Type} (S : StateStore σ) (R : RemoteClient) (intent : IntentAPI)

/-- The paths of `PowerLevels`: the cached document is returned without any
call; without one, the document is read through `StateEvent`, which runs
`EnsureJoined` first, an error of either is returned and nothing is cached,
and a document that was read is cached and returned. -/
theorem PowerLevels_paths (roomID : String) (w : World σ) :
    (∀ pl, S.GetPowerLevels w.store roomID = some pl →
      IntentAPI.PowerLevels S R intent roomID w = (Res.ret (pl, none), w)) ∧
    (S.GetPowerLevels w.store roomID = none →
      (∀ v w1, EnsureJoined S R intent roomID w = (Res.panic v, w1) →
        IntentAPI.PowerLevels S R intent roomID w = (Res.panic v, w1)) ∧
      (∀ err w1, EnsureJoined S R intent roomID w = (Res.ret (some err), w1) →
        IntentAPI.PowerLevels S R intent roomID w =
          (Res.ret (PowerLevels.zero, some err), w1)) ∧
      (∀ w1 err out, EnsureJoined S R intent roomID w = (Res.ret none, w1) →
        R.StateEvent w1.log intent.UserID roomID StatePowerLevels ""
          (Content.powerLevels PowerLevels.zero) = (some err, out) →
        IntentAPI.PowerLevels S R intent roomID w =
          (Res.ret (out.asPowerLevels, some err),
            ⟨w1.store,
              w1.log ++ [Event.remote intent.UserID
                (Call.StateEvent roomID StatePowerLevels ""
                  (Content.powerLevels PowerLevels.zero))]⟩)) ∧
      (∀ w1 out, EnsureJoined S R intent roomID w = (Res.ret none, w1) →
        R.StateEvent w1.log intent.UserID roomID StatePowerLevels ""
          (Content.powerLevels PowerLevels.zero) = (none, out) →
        IntentAPI.PowerLevels S R intent roomID w =
          (Res.ret (out.asPowerLevels, none),
            ⟨S.SetPowerLevels w1.store roomID out.asPowerLevels,
              w1.log ++ [Event.remote intent.UserID
                  (Call.StateEvent roomID StatePowerLevels ""
                    (Content.powerLevels PowerLevels.zero)),
                Event.store (Write.SetPowerLevels roomID out.asPowerLevels)]⟩))) := by
  refine ⟨fun pl hG => ?_, fun hG => ⟨fun v w1 hJ => ?_, fun err w1 hJ => ?_,
    fun w1 err out hJ hS => ?_, fun w1 out hJ hS => ?_⟩⟩
  · simp [IntentAPI.PowerLevels, hG]
  · simp [IntentAPI.PowerLevels, hG, StateEvent, hJ]
  · simp [IntentAPI.PowerLevels, hG, StateEvent, hJ, Content.asPowerLevels]
  · simp [IntentAPI.PowerLevels, hG, StateEvent, hJ, hS, World.call]
  · simp [IntentAPI.PowerLevels, hG, StateEvent, hJ, hS, World.call, World.wrote]

/-- A level change on a document whose users map is nil panics before anything
is sent. -/
theorem SetPowerLevel_nil_users_panics (roomID userID : String) (level : Int)
    (w w1 : World σ) (pl : PowerLevels)
    (hP : IntentAPI.PowerLevels S R intent roomID w = (Res.ret (pl, none), w1))
    (hU : pl.Users = none) (hL : pl.GetUserLevel userID ≠ level) :
    SetPowerLevel S R intent roomID userID level w = (Res.panic nilMapAssignment, w1) := by
  simp [SetPowerLevel, hP, hL, SetUserLevel_nil_users pl userID level hU hL]

/-- A panic or an error of `PowerLevels` ends `SetPowerLevel`: the panic spreads,
and the error is returned with a nil response. -/
theorem SetPowerLevel_of_fetch_failure (roomID userID : String) (level : Int)
    (w w1 : World σ) :
    (∀ v, IntentAPI.PowerLevels S R intent roomID w = (Res.panic v, w1) →
      SetPowerLevel S R intent roomID userID level w = (Res.panic v, w1)) ∧
    (∀ pl err, IntentAPI.PowerLevels S R intent roomID w = (Res.ret (pl, some err), w1) →
      SetPowerLevel S R intent roomID userID level w = (Res.ret (none, some err), w1)) := by
  exact ⟨fun v h => by simp [SetPowerLevel, h], fun pl err h => by simp [SetPowerLevel, h]⟩

end Fetch

/-- C8 (counterexample): with no document cached, a request for the level the
user already has returns the nil response and nil error, but a remote call,
the state read, was issued; with a document cached in which the levels
differ, an identity that cannot join issues no send at all; and with a
document read without a users map, a request for another level panics on the
nil map and issues no send either. -/
theorem SetPowerLevel_uncached_reads_remote :
    (BasicStateStore.ops.GetPowerLevels Scenario.joined.store "!room:example.org" = none ∧
      (SetPowerLevel BasicStateStore.ops Scenario.remoteOK Scenario.alice "!room:example.org"
        "@bob:example.org" 0 Scenario.joined).1 = Res.ret (none, none) ∧
      remoteCalls (SetPowerLevel BasicStateStore.ops Scenario.remoteOK Scenario.alice
        "!room:example.org" "@bob:example.org" 0 Scenario.joined).2.log =
        [Event.remote "@alice:example.org"
          (Call.StateEvent "!room:example.org" "m.room.power_levels" ""
            (Content.powerLevels PowerLevels.zero))]) ∧
    (BasicStateStore.ops.GetPowerLevels Scenario.cachedNotJoined.store "!room:example.org"
        = some Scenario.levels ∧
      Scenario.levels.GetUserLevel "@bob:example.org" = 50 ∧
      (SetPowerLevel BasicStateStore.ops Scenario.remoteJoinRefused Scenario.alice
        "!room:example.org" "@bob:example.org" 100 Scenario.cachedNotJoined).1 =
        Res.ret (none, some (Scenario.matrixError "M_UNKNOWN")) ∧
      remoteCalls (SetPowerLevel BasicStateStore.ops Scenario.remoteJoinRefused Scenario.alice
        "!room:example.org" "@bob:example.org" 100 Scenario.cachedNotJoined).2.log =
        [Event.remote "@alice:example.org" (Call.JoinRoom "!room:example.org" "")]) ∧
    ((SetPowerLevel BasicStateStore.ops Scenario.remoteOK Scenario.alice "!room:example.org"
        "@bob:example.org" 50 Scenario.joined).1 = Res.panic nilMapAssignment ∧
      remoteCalls (SetPowerLevel BasicStateStore.ops Scenario.remoteOK Scenario.alice
        "!room:example.org" "@bob:example.org" 50 Scenario.joined).2.log =
        [Event.remote "@alice:example.org"
          (Call.StateEvent "!room:example.org" "m.room.power_levels" ""
            (Content.powerLevels PowerLevels.zero))]) := by
  refine ⟨⟨by decide, by decide, by decide⟩, ⟨by decide, by decide, by decide, by decide⟩,
    ⟨by decide, by decide⟩⟩

/-- C8 (amended): with a document cached in which the user already has the
requested level, `SetPowerLevel` returns the nil response and nil error and
leaves the world as it was.  With no document cached the levels are fetched:
`EnsureJoined` runs first and its error is returned with nothing read; after
it one state read goes out, whose error is returned with nothing cached; a
document that was read is cached by one `SetPowerLevels` write, and when the
user has the requested level in it the nil pair is returned with no further
call.  In general, when `PowerLevels` returned a document in which the user has
the requested level, the nil pair is returned in the world `PowerLevels` left.
When the levels differ and the document has a users map, `SetUserLevel` gives
the document with the level set and `SetPowerLevel` is `SendStateEvent` of it,
which is join gated: the send goes out after an `EnsureJoined` success and the
error of `EnsureJoined` comes back otherwise. -/
theorem SetPowerLevel_noop_or_send {σ : Type} (S : StateStore σ) (R : RemoteClient)
    (intent : IntentAPI) (roomID userID : String) (level : Int) (w : World σ) :
    (∀ pl, S.GetPowerLevels w.store roomID = some pl → pl.GetUserLevel userID = level →
      SetPowerLevel S R intent roomID userID level w = (Res.ret (none, none), w)) ∧
    (S.GetPowerLevels w.store roomID = none →
      (∀ err w1, EnsureJoined S R intent roomID w = (Res.ret (some err), w1) →
        SetPowerLevel S R intent roomID userID level w = (Res.ret (none, some err), w1)) ∧
      (∀ w1 err out, EnsureJoined S R intent roomID w = (Res.ret none, w1) →
        R.StateEvent w1.log intent.UserID roomID StatePowerLevels ""
          (Content.powerLevels PowerLevels.zero) = (some err, out) →
        SetPowerLevel S R intent roomID userID level w =
          (Res.ret (none, some err),
            ⟨w1.store,
              w1.log ++ [Event.remote intent.UserID
                (Call.StateEvent roomID StatePowerLevels ""
                  (Content.powerLevels PowerLevels.zero))]⟩)) ∧
      (∀ w1 out, EnsureJoined S R intent roomID w = (Res.ret none, w1) →
        R.StateEvent w1.log intent.UserID roomID StatePowerLevels ""
          (Content.powerLevels PowerLevels.zero) = (none, out) →
        out.asPowerLevels.GetUserLevel userID = level →
        SetPowerLevel S R intent roomID userID level w =
          (Res.ret (none, none),
            ⟨S.SetPowerLevels w1.store roomID out.asPowerLevels,
              w1.log ++ [Event.remote intent.UserID
                  (Call.StateEvent roomID StatePowerLevels ""
                    (Content.powerLevels PowerLevels.zero)),
                Event.store (Write.SetPowerLevels roomID out.asPowerLevels)]⟩))) ∧
    (∀ pl w1, IntentAPI.PowerLevels S R intent roomID w = (Res.ret (pl, none), w1) →
      pl.GetUserLevel userID = level →
      SetPowerLevel S R intent roomID userID level w = (Res.ret (none, none), w1)) ∧
    (∀ pl w1 users, IntentAPI.PowerLevels S R intent roomID w = (Res.ret (pl, none), w1) →
      pl.GetUserLevel userID ≠ level →
      pl.Users = some users →
      ∃ pl1, pl.SetUserLevel userID level = Res.ret pl1 ∧
        pl1.GetUserLevel userID = level ∧
        SetPowerLevel S R intent roomID userID level w =
          SendStateEvent S R intent roomID StatePowerLevels "" (Content.powerLevels pl1)
            ⟨S.aliasPowerLevels w1.store roomID pl1, w1.log⟩ ∧
        JoinGated S R intent roomID
          (SendStateEvent S R intent roomID StatePowerLevels "" (Content.powerLevels pl1))
          (Call.SendStateEvent roomID StatePowerLevels "" (Content.powerLevels pl1))) := by
  obtain ⟨hCached, hFetch⟩ := PowerLevels_paths S R intent roomID w
  refine ⟨fun pl hG hL => ?_, fun hG => ⟨fun err w1 hJ => ?_, fun w1 err out hJ hS => ?_,
    fun w1 out hJ hS hL => ?_⟩, fun pl w1 hP hL => ?_, fun pl w1 users hP hL hU => ?_⟩
  · simp [SetPowerLevel, hCached pl hG, hL]
  · simp [SetPowerLevel, (hFetch hG).2.1 err w1 hJ]
  · simp [SetPowerLevel, (hFetch hG).2.2.1 w1 err out hJ hS]
  · simp [SetPowerLevel, (hFetch hG).2.2.2 w1 out hJ hS, hL]
  · simp [SetPowerLevel, hP, hL]
  · obtain ⟨pl1, h1⟩ := SetUserLevel_of_users pl users userID level hU
    refine ⟨pl1, h1, GetUserLevel_SetUserLevel pl pl1 userID level h1, ?_, ?_⟩
    · simp [SetPowerLevel, hP, hL, h1]
    · exact fun w => ⟨fun err w1 h => by simp [SendStateEvent, h],
        fun w1 h => by simp [SendStateEvent, h, clientSend, World.call]⟩

/-- C8 (amended) at concrete inputs: with the document cached, asking for the
level the user has changes nothing; with none cached, the same request reads
the document and caches it; and asking for another level as a joined identity
sends the changed document. -/
theorem SetPowerLevel_noop_or_send_witness :
    SetPowerLevel BasicStateStore.ops Scenario.remoteOK Scenario.alice "!room:example.org"
        "@bob:example.org" 50 Scenario.cachedJoined =
      (Res.ret (none, none), Scenario.cachedJoined) ∧
    (SetPowerLevel BasicStateStore.ops Scenario.remoteOK Scenario.alice "!room:example.org"
        "@bob:example.org" 0 Scenario.joined).2.log =
      [Event.remote "@alice:example.org"
          (Call.StateEvent "!room:example.org" "m.room.power_levels" ""
            (Content.powerLevels PowerLevels.zero)),
        Event.store (Write.SetPowerLevels "!room:example.org" PowerLevels.zero)] ∧
    remoteCalls (SetPowerLevel BasicStateStore.ops Scenario.remoteOK Scenario.alice
        "!room:example.org" "@bob:example.org" 100 Scenario.cachedJoined).2.log =
      [Event.remote "@alice:example.org"
        (Call.SendStateEvent "!room:example.org" "m.room.power_levels" ""
          (Content.powerLevels ⟨some [("@bob:example.org", 100)], 0, [], 0, ""⟩))] := by
  refine ⟨?_, ?_, ?_⟩
  · exact (SetPowerLevel_noop_or_send BasicStateStore.ops Scenario.remoteOK Scenario.alice
      "!room:example.org" "@bob:example.org" 50 Scenario.cachedJoined).1 Scenario.levels
        (by decide) (by decide)
  · rw [((SetPowerLevel_noop_or_send BasicStateStore.ops Scenario.remoteOK Scenario.alice
      "!room:example.org" "@bob:example.org" 0 Scenario.joined).2.1 (by decide)).2.2
        Scenario.joined (Content.powerLevels PowerLevels.zero) rfl rfl (by decide)]
    rfl
  · obtain ⟨pl1, h1, -, h2, -⟩ :=
      (SetPowerLevel_noop_or_send BasicStateStore.ops Scenario.remoteOK Scenario.alice
        "!room:example.org" "@bob:example.org" 100 Scenario.cachedJoined).2.2.2 Scenario.levels
        Scenario.cachedJoined [("@bob:example.org", 50)] rfl (by decide) rfl
    have hpl : pl1 = ⟨some [("@bob:example.org", 100)], 0, [], 0, ""⟩ := by
      have h3 : Scenario.levels.SetUserLevel "@bob:example.org" 100 =
          Res.ret ⟨some [("@bob:example.org", 100)], 0, [], 0, ""⟩ := by decide
      rw [h3] at h1
      injection h1 with h1
      exact h1.symm
    rw [h2, hpl]
    decide

end Appservice

/-! ## Typing suppression -/

namespace Appservice

open IntentAPI

/-- The basic store obeys the typing contract. -/
theorem BasicStateStore_TypingContract : TypingContract BasicStateStore.ops := by
  intro s roomID userID timeout
  simp [BasicStateStore.ops, BasicStateStore.IsTyping, BasicStateStore.SetTyping, List.lookup]

/-- C9 (counterexample): the basic store obeys the typing contract, the
identity is not typing and every typing call succeeds, yet two consecutive
`UserTyping(roomID, true, -1)` calls issue two remote typing calls. -/
theorem UserTyping_negative_timeout_twice :
    TypingContract BasicStateStore.ops ∧
    BasicStateStore.ops.IsTyping Scenario.fresh.store "!room:example.org"
      Scenario.alice.UserID = false ∧
    typingCalls
      (UserTyping BasicStateStore.ops Scenario.remoteOK Scenario.alice "!room:example.org"
        true (-1)
        (UserTyping BasicStateStore.ops Scenario.remoteOK Scenario.alice "!room:example.org"
          true (-1) Scenario.fresh).2).2.log =
      [Event.remote "@alice:example.org" (Call.UserTyping "!room:example.org" true (-1)),
       Event.remote "@alice:example.org" (Call.UserTyping "!room:example.org" true (-1))] := by
  refine ⟨?_, by decide, by decide⟩
  intro s roomID userID timeout
  simp [BasicStateStore.ops, BasicStateStore.IsTyping, BasicStateStore.SetTyping, List.lookup]

/-- C9 (amended): against a store that obeys the typing contract, from a world
in which the identity is not typing and with every remote typing call
succeeding, for every timeout `t` that is not negative the first
`UserTyping(roomID, true, t)` issues the typing call and writes
`SetTyping(roomID, intent.UserID, t)`, the second changes nothing, and a
following `UserTyping(roomID, false, t1)` issues one typing call and then
writes `SetTyping(roomID, intent.UserID, -1)` whatever `t1` is.  Against any
store, a typing call that fails has its error returned and the store is left
as it was. -/
theorem UserTyping_suppression {σ : Type} (S : StateStore σ) (R : RemoteClient)
    (intent : IntentAPI) (roomID : String) (t t1 : Int) (w : World σ)
    (hS : TypingContract S)
    (hR : ∀ log client room typing timeout, (R.UserTyping log client room typing timeout).2 = none)
    (hw : S.IsTyping w.store roomID intent.UserID = false)
    (ht : 0 ≤ t) :
    (UserTyping S R intent roomID true t w).2 =
      ⟨S.SetTyping w.store roomID intent.UserID t,
        w.log ++ [Event.remote intent.UserID (Call.UserTyping roomID true t),
          Event.store (Write.SetTyping roomID intent.UserID t)]⟩ ∧
    (UserTyping S R intent roomID true t (UserTyping S R intent roomID true t w).2).2 =
      (UserTyping S R intent roomID true t w).2 ∧
    (UserTyping S R intent roomID false t1
        (UserTyping S R intent roomID true t (UserTyping S R intent roomID true t w).2).2).2 =
      ⟨S.SetTyping (S.SetTyping w.store roomID intent.UserID t) roomID intent.UserID (-1),
        w.log ++ [Event.remote intent.UserID (Call.UserTyping roomID true t),
          Event.store (Write.SetTyping roomID intent.UserID t),
          Event.remote intent.UserID (Call.UserTyping roomID false t1),
          Event.store (Write.SetTyping roomID intent.UserID (-1))]⟩ ∧
    (∀ (S1 : StateStore σ) (R1 : RemoteClient) (typing : Bool) (timeout : Int) (w1 : World σ)
        (resp : Option RespTyping) (err : GoError),
      S1.IsTyping w1.store roomID intent.UserID ≠ typing →
      R1.UserTyping w1.log intent.UserID roomID typing timeout = (resp, some err) →
      UserTyping S1 R1 intent roomID typing timeout w1 =
        (Res.ret (resp, some err),
          ⟨w1.store,
            w1.log ++ [Event.remote intent.UserID (Call.UserTyping roomID typing timeout)]⟩)) := by
  have first : (UserTyping S R intent roomID true t w).2 =
      ⟨S.SetTyping w.store roomID intent.UserID t,
        w.log ++ [Event.remote intent.UserID (Call.UserTyping roomID true t),
          Event.store (Write.SetTyping roomID intent.UserID t)]⟩ := by
    unfold UserTyping
    rw [if_neg (by simp [hw])]
    rcases hT : R.UserTyping w.log intent.UserID roomID true t with ⟨resp, _ | err⟩
    · simp [World.call, World.wrote]
    · have := hR w.log intent.UserID roomID true t
      rw [hT] at this
      cases this
  have typingNow : S.IsTyping (S.SetTyping w.store roomID intent.UserID t) roomID intent.UserID
      = true := by
    rw [hS]
    simpa using ht
  have second : (UserTyping S R intent roomID true t (UserTyping S R intent roomID true t w).2).2 =
      (UserTyping S R intent roomID true t w).2 := by
    rw [first]
    unfold UserTyping
    rw [if_pos (by simp [typingNow])]
  refine ⟨first, second, ?_, ?_⟩
  · rw [second, first]
    unfold UserTyping
    rw [if_neg (by simp [typingNow])]
    rcases hT : R.UserTyping
        (w.log ++ [Event.remote intent.UserID (Call.UserTyping roomID true t),
          Event.store (Write.SetTyping roomID intent.UserID t)])
        intent.UserID roomID false t1 with ⟨resp, _ | err⟩
    · simp [World.call, World.wrote]
    · have := hR (w.log ++ [Event.remote intent.UserID (Call.UserTyping roomID true t),
          Event.store (Write.SetTyping roomID intent.UserID t)]) intent.UserID roomID false t1
      rw [hT] at this
      cases this
  · intro S1 R1 typing timeout w1 resp err hne hT
    unfold UserTyping
    rw [if_neg hne]
    simp [hT, World.call]

/-- C9 (amended) at a concrete input: three calls on the basic store with the
timeouts 5000 and 7, and a typing call that fails. -/
theorem UserTyping_suppression_witness :
    typingCalls
      (UserTyping BasicStateStore.ops Scenario.remoteOK Scenario.alice "!room:example.org"
        true 5000
        (UserTyping BasicStateStore.ops Scenario.remoteOK Scenario.alice "!room:example.org"
          true 5000 Scenario.fresh).2).2.log =
      [Event.remote "@alice:example.org" (Call.UserTyping "!room:example.org" true 5000)] ∧
    storeWrites
      (UserTyping BasicStateStore.ops Scenario.remoteOK Scenario.alice "!room:example.org"
        false 7
        (UserTyping BasicStateStore.ops Scenario.remoteOK Scenario.alice "!room:example.org"
          true 5000
          (UserTyping BasicStateStore.ops Scenario.remoteOK Scenario.alice "!room:example.org"
            true 5000 Scenario.fresh).2).2).2.log =
      [Event.store (Write.SetTyping "!room:example.org" "@alice:example.org" 5000),
       Event.store (Write.SetTyping "!room:example.org" "@alice:example.org" (-1))] ∧
    (UserTyping BasicStateStore.ops Scenario.remoteTypingFails Scenario.alice
        "!room:example.org" true 5000 Scenario.fresh).1 =
      Res.ret (none, some Scenario.networkError) := by
  have h := UserTyping_suppression BasicStateStore.ops Scenario.remoteOK Scenario.alice
    "!room:example.org" 5000 7 Scenario.fresh BasicStateStore_TypingContract
    (fun _ _ _ _ _ => rfl) (by decide) (by decide)
  refine ⟨?_, ?_, ?_⟩
  · rw [h.2.1, h.1]
    decide
  · rw [h.2.2.1]
    decide
  · rw [h.2.2.2 BasicStateStore.ops Scenario.remoteTypingFails true 5000 Scenario.fresh none
      Scenario.networkError (by decide) rfl]

end Appservice

/-! ## The flat-file store -/

namespace Stores

open Appservice

section WriteThrough

variable {β τ : Type} (codec : Snapshot β τ) (fs : FileSystem τ)

/-- After a `save` that returned no error the file of the store holds the
encoding of its whole basic store, which decodes to that store again. -/
theorem save_ok (store : flatfileStore β) (disk disk1 : Disk τ)
    (h : flatfileStore.save codec fs store disk = (none, disk1)) :
    ∃ text, codec.Encode store.BasicStateStore = Except.ok text ∧
      disk1.lookup store.filename = some (some text) ∧
      codec.Decode text = Except.ok store.BasicStateStore := by
  unfold flatfileStore.save at h
  rcases hC : fs.CreateError disk store.filename with _ | err
  · rcases hE : codec.Encode store.BasicStateStore with err | text
    · simp [hC, hE] at h
    · rcases hW : fs.WriteError ((store.filename, none) :: disk) store.filename text
        with _ | ⟨err, disk2⟩
      · simp [hC, hE, hW] at h
        refine ⟨text, rfl, ?_, codec.roundTrip _ _ hE⟩
        rw [← h]
        simp [List.lookup]
      · simp [hC, hE, hW] at h
  · simp [hC] at h

/-- The shared tail `saveOrPanic` is a write-through of the store it is given. -/
theorem saveOrPanic_writeThrough (store : flatfileStore β) (disk : Disk τ) (mutated : β) :
    WriteThrough codec fs store disk mutated
      (flatfileStore.saveOrPanic codec fs { store with BasicStateStore := mutated } disk) := by
  refine ⟨fun store1 disk1 h => ?_, fun err disk1 h => ?_, fun disk1 h => ?_⟩
  · unfold flatfileStore.saveOrPanic at h
    rcases hS : flatfileStore.save codec fs { store with BasicStateStore := mutated } disk
      with ⟨_ | err, disk2⟩
    · simp [hS] at h
      obtain ⟨h1, h2⟩ := h
      subst h2
      exact ⟨h1.symm, rfl, save_ok codec fs _ _ _ hS⟩
    · simp [hS] at h
  · simp [flatfileStore.saveOrPanic, h]
  · simp [flatfileStore.saveOrPanic, h]

end WriteThrough

/-- C10: each of the five mutating methods of the flat-file store applies the
mutation of the basic store and then saves.  It returns only after a `save`
without error, and the backing file then holds the encoding of the whole
mutated store, which decodes to the mutated store again; it panics with the
error of `save` when `save` fails.  Each of the eleven reading methods returns
the result of the basic store; reading methods do not take the disk, so they
cannot persist. -/
theorem flatfileStore_write_through {β τ : Type} (B : StateStore β) (codec : Snapshot β τ)
    (fs : FileSystem τ) (store : flatfileStore β) (disk : Disk τ)
    (roomID userID membership eventType : String)
    (timeout : Int) (member : Member) (levels : PowerLevels)
    (allowedMemberships : List String) :
    (WriteThrough codec fs store disk (B.MarkRegistered store.BasicStateStore userID)
        (flatfileStore.MarkRegistered B codec fs store userID disk) ∧
      WriteThrough codec fs store disk
        (B.SetTyping store.BasicStateStore roomID userID timeout)
        (flatfileStore.SetTyping B codec fs store roomID userID timeout disk) ∧
      WriteThrough codec fs store disk
        (B.SetMembership store.BasicStateStore roomID userID membership)
        (flatfileStore.SetMembership B codec fs store roomID userID membership disk) ∧
      WriteThrough codec fs store disk (B.SetMember store.BasicStateStore roomID userID member)
        (flatfileStore.SetMember B codec fs store roomID userID member disk) ∧
      WriteThrough codec fs store disk (B.SetPowerLevels store.BasicStateStore roomID levels)
        (flatfileStore.SetPowerLevels B codec fs store roomID levels disk)) ∧
    (flatfileStore.IsRegistered B store userID = B.IsRegistered store.BasicStateStore userID ∧
      flatfileStore.IsTyping B store roomID userID
        = B.IsTyping store.BasicStateStore roomID userID ∧
      flatfileStore.IsInRoom B store roomID userID
        = B.IsInRoom store.BasicStateStore roomID userID ∧
      flatfileStore.IsInvited B store roomID userID
        = B.IsInvited store.BasicStateStore roomID userID ∧
      flatfileStore.IsMembership B store roomID userID allowedMemberships
        = B.IsMembership store.BasicStateStore roomID userID allowedMemberships ∧
      flatfileStore.GetMember B store roomID userID
        = B.GetMember store.BasicStateStore roomID userID ∧
      flatfileStore.TryGetMember B store roomID userID
        = B.TryGetMember store.BasicStateStore roomID userID ∧
      flatfileStore.GetPowerLevels B store roomID
        = B.GetPowerLevels store.BasicStateStore roomID ∧
      flatfileStore.GetPowerLevel B store roomID userID
        = B.GetPowerLevel store.BasicStateStore roomID userID ∧
      flatfileStore.GetPowerLevelRequirement B store roomID eventType
        = B.GetPowerLevelRequirement store.BasicStateStore roomID eventType ∧
      flatfileStore.HasPowerLevel B store roomID userID eventType
        = B.HasPowerLevel store.BasicStateStore roomID userID eventType) := by
  refine ⟨⟨?_, ?_, ?_, ?_, ?_⟩, ⟨rfl, rfl, rfl, rfl, rfl, rfl, rfl, rfl, rfl, rfl, rfl⟩⟩
  · exact saveOrPanic_writeThrough codec fs store disk _
  · exact saveOrPanic_writeThrough codec fs store disk _
  · exact saveOrPanic_writeThrough codec fs store disk _
  · exact saveOrPanic_writeThrough codec fs store disk _
  · exact saveOrPanic_writeThrough codec fs store disk _

/-- C10 at concrete inputs: on a working disk `SetTyping` returns with the typing
record in the store and in the file, and on a full disk `MarkRegistered`
panics with the error of `save`. -/
theorem flatfileStore_write_through_witness :
    flatfileStore.SetTyping BasicStateStore.ops Scenario.snapshotOfStore Scenario.diskOK
        Scenario.fileStore "!room:example.org" "@alice:example.org" 5000 [] =
      (Res.ret
          ⟨BasicStateStore.empty.SetTyping "!room:example.org" "@alice:example.org" 5000,
            "state.json"⟩,
        [("state.json",
            some (BasicStateStore.empty.SetTyping "!room:example.org" "@alice:example.org"
              5000)),
          ("state.json", none)]) ∧
    flatfileStore.MarkRegistered BasicStateStore.ops Scenario.snapshotOfStore Scenario.diskFull
        Scenario.fileStore "@alice:example.org" [] =
      (Res.panic
          (GoError.wrapped "writing state to file state.json: "
            (GoError.other "no space left on device")),
        [("state.json", none)]) := by
  have hOK := (flatfileStore_write_through BasicStateStore.ops Scenario.snapshotOfStore
    Scenario.diskOK Scenario.fileStore [] "!room:example.org" "@alice:example.org" "" "" 5000
    ⟨"", "", ""⟩ PowerLevels.zero []).1.2.1
  have hFull := (flatfileStore_write_through BasicStateStore.ops Scenario.snapshotOfStore
    Scenario.diskFull Scenario.fileStore [] "" "@alice:example.org" "" "" 0 ⟨"", "", ""⟩
    PowerLevels.zero []).1.1
  constructor
  · exact hOK.2.2 _ rfl
  · exact hFull.2.1 _ _ rfl

end Stores
